import Mathlib

/-!
Verification development for the ARQV40 Enhanced pipeline
(`src/services/arqv40_enhanced_orchestrator.py` and
`src/services/enhanced_module_processor.py`).

The Python code is shallowly embedded: Python dictionaries, lists, strings,
numbers, booleans and `None` are modelled by the dynamic value type `PyVal`;
fallible operations (attribute access on a non-dict, `KeyError`, `TypeError`
on iteration, a collaborator call raising) are modelled in the `Except String`
monad, with a `try/except` block becoming a `match` on the monadic result.
External collaborators (the WebSailor navigator, the Supadata client, the
visual-capture service, the AI managers, the final report compiler and the
standard-library `json.loads`) are injected as parameters, so a theorem
quantifying over them covers every collaborator behaviour, including raising.
Wall-clock measurements (`time.time()`) and file-system persistence are not
modelled; persistence is treated as always succeeding, and saved artifacts are
recovered functionally (see `filesOf`).
-/

/-- Dynamic Python value: the payload shapes exchanged between the
orchestrator and its collaborators. -/
inductive PyVal where
  | none
  | bool (b : Bool)
  | int (n : Int)
  | str (s : String)
  | list (xs : List PyVal)
  | dict (kvs : List (String × PyVal))

/-- Python truthiness: `None`, `False`, `0`, `""`, `[]` and `{}` are falsy. -/
def truthy : PyVal → Bool
  | .none => false
  | .bool b => b
  | .int n => n != 0
  | .str s => s ≠ ""
  | .list xs => !xs.isEmpty
  | .dict kvs => !kvs.isEmpty

/-- First-match association lookup, as in a Python dict built with unique keys. -/
def pvLookup (kvs : List (String × PyVal)) (k : String) : Option PyVal :=
  List.lookup k kvs

/-- Models `x.get(k)`: raises `AttributeError` when `x` is not a dict,
returns `None` when the key is absent. -/
def pvGet (v : PyVal) (k : String) : Except String PyVal :=
  match v with
  | .dict kvs => .ok ((pvLookup kvs k).getD .none)
  | _ => .error ("AttributeError: get on non-dict for key " ++ k)

/-- Models `x.get(k, default)`. -/
def pvGetD (v : PyVal) (k : String) (d : PyVal) : Except String PyVal :=
  match v with
  | .dict kvs => .ok ((pvLookup kvs k).getD d)
  | _ => .error ("AttributeError: get on non-dict for key " ++ k)

/-- Models `x[k]`: `KeyError` when absent, `TypeError` when not a dict. -/
def pvIndex (v : PyVal) (k : String) : Except String PyVal :=
  match v with
  | .dict kvs =>
      match pvLookup kvs k with
      | some x => .ok x
      | Option.none => .error ("KeyError: " ++ k)
  | _ => .error ("TypeError: indexing non-dict with key " ++ k)

/-- Models `for x in v`: iterating anything but a list raises `TypeError`
(string iteration is not needed by the embedded code paths). -/
def pvIterList (v : PyVal) : Except String (List PyVal) :=
  match v with
  | .list xs => .ok xs
  | _ => .error "TypeError: not iterable"

/-- Models `v[:10]`: list and string slices succeed, anything else raises. -/
def pvSlice10 (v : PyVal) : Except String PyVal :=
  match v with
  | .list xs => .ok (.list (xs.take 10))
  | .str s => .ok (.str (String.mk (s.data.take 10)))
  | _ => .error "TypeError: unsliceable"

/-- Models `len(v)` for lists, strings and dicts; `TypeError` otherwise. -/
def pvLen (v : PyVal) : Except String Nat :=
  match v with
  | .list xs => .ok xs.length
  | .str s => .ok s.length
  | .dict kvs => .ok kvs.length
  | _ => .error "TypeError: object has no len"

/-- Replace the binding of `k` (keeping its position) or append it,
as `dict.update` does for a single key. -/
def pvUpdateKey (kvs : List (String × PyVal)) (k : String) (v : PyVal) :
    List (String × PyVal) :=
  if kvs.any (fun p => p.1 = k) then
    kvs.map (fun p => if p.1 = k then (k, v) else p)
  else kvs ++ [(k, v)]

/-- Models `d.update({...})`; raises when `d` is not a dict. -/
def pvUpdate (v : PyVal) (items : List (String × PyVal)) : Except String PyVal :=
  match v with
  | .dict kvs => .ok (.dict (items.foldl (fun a p => pvUpdateKey a p.1 p.2) kvs))
  | _ => .error "AttributeError: update on non-dict"

/-- Whitespace characters stripped by Python `str.strip()` (ASCII subset). -/
def isPySpace (c : Char) : Bool :=
  c = ' ' || c = '\t' || c = '\n' || c = '\r' || c = '\x0b' || c = '\x0c'

/-- Python `str.strip()`. -/
def pyStrip (s : String) : String :=
  String.mk (((s.data.dropWhile isPySpace).reverse.dropWhile isPySpace).reverse)

/-- Index of the first occurrence of `pat` in `l` (`str.find` on char lists). -/
def subIdx (pat : List Char) : List Char → Option Nat
  | [] => if pat.isEmpty then some 0 else Option.none
  | c :: rest =>
      if pat.isPrefixOf (c :: rest) then some 0
      else (subIdx pat rest).map (· + 1)

/-- Index of the last occurrence of `pat` in `l` (`str.rfind` on char lists). -/
def subIdxLast (pat : List Char) : List Char → Option Nat
  | [] => if pat.isEmpty then some 0 else Option.none
  | c :: rest =>
      match subIdxLast pat rest with
      | some n => some (n + 1)
      | Option.none =>
          if pat.isPrefixOf (c :: rest) then some 0 else Option.none

/-- Python `s.find(pat)`: first index or `-1`. -/
def pyFind (s pat : String) : Int :=
  match subIdx pat.data s.data with
  | some n => (n : Int)
  | Option.none => -1

/-- Python `s.rfind(pat)`: last index or `-1`. -/
def pyRFind (s pat : String) : Int :=
  match subIdxLast pat.data s.data with
  | some n => (n : Int)
  | Option.none => -1

/-- Python slice `s[a:b]` with int indices: negative indices count from the
end, and both bounds are clamped to `[0, len]`. -/
def pySlice (s : String) (a b : Int) : String :=
  let n : Int := (s.data.length : Int)
  let lo : Int := if a < 0 then max (n + a) 0 else min a n
  let hi : Int := if b < 0 then max (n + b) 0 else min b n
  String.mk ((s.data.take hi.toNat).drop lo.toNat)

/-- Python `s.lower()` (ASCII). -/
def pyLower (s : String) : String :=
  String.mk (s.data.map Char.toLower)

/-- Python `s.replace('_', ' ')`. -/
def pyReplaceUnderscore (s : String) : String :=
  String.mk (s.data.map (fun c => if c = '_' then ' ' else c))

/-- Helper for `pyTitle`: the Bool records whether the previous character
was alphabetic. -/
def pyTitleAux : Bool → List Char → List Char
  | _, [] => []
  | prev, c :: rest =>
      if c.isAlpha then
        (if prev then c.toLower else c.toUpper) :: pyTitleAux true rest
      else c :: pyTitleAux false rest

/-- Python `s.title()` (ASCII): uppercase each letter that follows a
non-letter, lowercase the others. -/
def pyTitle (s : String) : String :=
  String.mk (pyTitleAux false s.data)

/-- Non-overlapping occurrence count, scanning left to right
(Python `s.count(sub)` for non-empty `sub`); fuelled by the list length. -/
def countSubAux (pat : List Char) : Nat → List Char → Nat
  | 0, _ => 0
  | _, [] => 0
  | fuel + 1, c :: rest =>
      if pat.isPrefixOf (c :: rest) then
        1 + countSubAux pat fuel ((c :: rest).drop pat.length)
      else countSubAux pat fuel rest

/-- Python `s.count(sub)` for non-empty `sub`. -/
def pyCount (s pat : String) : Nat :=
  countSubAux pat.data s.data.length s.data

/-! ## Model of the standard-library `json.loads`

The orchestrator calls `json.loads` (an external library) inside
`_process_study_result`. The embedding of that method is parameterised by an
arbitrary parse function `String → Except String PyVal` (success = the parsed
value, error = the exception raised). `jsonLoads` below is one concrete,
executable model of the library — a fuelled recursive-descent JSON reader
restricted to integer numerals and escape-free strings, which is enough for
every payload evaluated concretely in this file. -/

/-- JSON whitespace. -/
def isJsonWs (c : Char) : Bool :=
  c = ' ' || c = '\t' || c = '\n' || c = '\r'

/-- Read the characters of a JSON string literal up to the closing quote
(escape sequences are outside this model). -/
def readJsonStr : List Char → Except String (String × List Char)
  | [] => .error "Unterminated string"
  | c :: rest =>
      if c = '"' then .ok ("", rest)
      else
        match readJsonStr rest with
        | .ok (s, r) => .ok (String.mk (c :: s.data), r)
        | .error e => .error e

/-- Read a run of decimal digits. -/
def readDigits : List Char → (List Char × List Char)
  | [] => ([], [])
  | c :: rest =>
      if c.isDigit then
        let (ds, r) := readDigits rest
        (c :: ds, r)
      else ([], c :: rest)

/-- Digits to a natural number. -/
def digitsToNat (ds : List Char) : Nat :=
  ds.foldl (fun a c => a * 10 + (c.toNat - '0'.toNat)) 0

mutual

/-- Fuelled JSON value reader. -/
def parseJsonVal : Nat → List Char → Except String (PyVal × List Char)
  | 0, _ => .error "Expecting value"
  | fuel + 1, l =>
      match l.dropWhile isJsonWs with
      | [] => .error "Expecting value"
      | '"' :: rest =>
          match readJsonStr rest with
          | .ok (s, r) => .ok (.str s, r)
          | .error e => .error e
      | 't' :: 'r' :: 'u' :: 'e' :: rest => .ok (.bool true, rest)
      | 'f' :: 'a' :: 'l' :: 's' :: 'e' :: rest => .ok (.bool false, rest)
      | 'n' :: 'u' :: 'l' :: 'l' :: rest => .ok (.none, rest)
      | '[' :: rest =>
          (match rest.dropWhile isJsonWs with
           | ']' :: r => .ok (.list [], r)
           | r => match parseJsonItems fuel r with
                  | .ok (xs, r2) => .ok (.list xs, r2)
                  | .error e => .error e)
      | '\x7b' :: rest =>
          (match rest.dropWhile isJsonWs with
           | '\x7d' :: r => .ok (.dict [], r)
           | r => match parseJsonFields fuel r with
                  | .ok (fs, r2) => .ok (.dict fs, r2)
                  | .error e => .error e)
      | '-' :: rest =>
          (match readDigits rest with
           | ([], _) => .error "Expecting value"
           | (ds, r) => .ok (.int (-(digitsToNat ds : Int)), r))
      | c :: rest =>
          if c.isDigit then
            match readDigits (c :: rest) with
            | (ds, r) => .ok (.int (digitsToNat ds : Int), r)
          else .error "Expecting value"

/-- Array items, after the opening bracket (first item pending). -/
def parseJsonItems : Nat → List Char → Except String (List PyVal × List Char)
  | 0, _ => .error "Expecting value"
  | fuel + 1, l =>
      match parseJsonVal fuel l with
      | .error e => .error e
      | .ok (v, r) =>
          match r.dropWhile isJsonWs with
          | ']' :: r2 => .ok ([v], r2)
          | ',' :: r2 =>
              (match parseJsonItems fuel r2 with
               | .ok (xs, r3) => .ok (v :: xs, r3)
               | .error e => .error e)
          | _ => .error "Expecting delimiter"

/-- Object fields, after the opening brace (first field pending). -/
def parseJsonFields : Nat → List Char →
    Except String (List (String × PyVal) × List Char)
  | 0, _ => .error "Expecting value"
  | fuel + 1, l =>
      match l.dropWhile isJsonWs with
      | '"' :: rest =>
          (match readJsonStr rest with
           | .error e => .error e
           | .ok (k, r) =>
              match r.dropWhile isJsonWs with
              | ':' :: r2 =>
                  (match parseJsonVal fuel r2 with
                   | .error e => .error e
                   | .ok (v, r3) =>
                      match r3.dropWhile isJsonWs with
                      | '\x7d' :: r4 => .ok ([(k, v)], r4)
                      | ',' :: r4 =>
                          (match parseJsonFields fuel r4 with
                           | .ok (fs, r5) => .ok ((k, v) :: fs, r5)
                           | .error e => .error e)
                      | _ => .error "Expecting delimiter")
              | _ => .error "Expecting colon")
      | _ => .error "Expecting property name"

end

/-- Executable model of `json.loads`: parse one value, then require only
whitespace to remain. -/
def jsonLoads (s : String) : Except String PyVal :=
  match parseJsonVal (s.length + 1) s.data with
  | .error e => .error e
  | .ok (v, rest) =>
      if (rest.dropWhile isJsonWs).isEmpty then .ok v
      else .error "Extra data"

/-! ## `EnhancedModuleProcessor` (src/services/enhanced_module_processor.py)

The generation collaborator (`ai_manager.generate_with_tools` /
`ai_manager.generate_text`, lines 470-480) and the file write performed by
`_save_module` (lines 628-642) are injected: `gen name` is the outcome of the
generation call made with the module's full prompt (the prompt text itself
plays no role in any claim), and `save name content` is the outcome of
`_save_module`. Both raise by returning `.error`. -/

/-- The fixed registry of 16 module names (`modules_list`, lines 23-40). -/
def modules_list : List String :=
  [ "anti_objecao"
  , "avatars"
  , "concorrencia"
  , "drivers_mentais"
  , "funil_vendas"
  , "insights_mercado"
  , "palavras_chave"
  , "plano_acao"
  , "posicionamento"
  , "pre_pitch"
  , "predicoes_futuro"
  , "provas_visuais"
  , "metricas_conversao"
  , "estrategia_preco"
  , "canais_aquisicao"
  , "cronograma_lancamento" ]

/-- One slot of `results['modules']` (lines 485-489 / 498-502). -/
inductive ModuleEntry where
  | success (length : Nat) (generated_at : String)
  | error (msg : String) (generated_at : String)
deriving DecidableEq

/-- The `status` field of a slot, with the `'not_generated'` default used by
`_build_consolidated_report` (line 687). -/
def entryStatus : Option ModuleEntry → String
  | some (.success _ _) => "success"
  | some (.error _ _) => "error"
  | Option.none => "not_generated"

/-- The `results` accumulator of `generate_all_modules` (lines 446-454). -/
structure GenResults where
  session_id : String
  timestamp : String
  total_modules : Nat
  successful_modules : Nat
  failed_modules : Nat
  modules : List (String × ModuleEntry)
  errors : List String

/-- The body of one loop iteration of `generate_all_modules` (lines 459-504):
generate the module content, then save it; any exception in either step is
the module's failure. -/
def moduleRun (gen : String → Except String String)
    (save : String → String → Except String Unit) (n : String) :
    Except String String := do
  let content ← gen n
  save n content
  pure content

/-- Record one module's outcome into the accumulator (lines 482-504). -/
def genStep (gen : String → Except String String)
    (save : String → String → Except String Unit) (now : String)
    (acc : GenResults) (n : String) : GenResults :=
  match moduleRun gen save n with
  | .ok c =>
      { acc with
        modules := acc.modules ++ [(n, .success c.length now)]
        successful_modules := acc.successful_modules + 1 }
  | .error e =>
      { acc with
        modules := acc.modules ++ [(n, .error e now)]
        failed_modules := acc.failed_modules + 1
        errors := acc.errors ++ ["Erro ao gerar módulo " ++ n ++ ": " ++ e] }

/-- `generate_all_modules` (lines 422-510): the per-module loop over the
registry. Loading of the base data (lines 436-443) is presupposed successful —
the claims quantify over runs in which the loop executes — and `datetime.now()`
is the injected `now`. -/
def generate_all_modules (gen : String → Except String String)
    (save : String → String → Except String Unit)
    (sid now : String) : GenResults :=
  modules_list.foldl (genStep gen save now)
    { session_id := sid
      timestamp := now
      total_modules := modules_list.length
      successful_modules := 0
      failed_modules := 0
      modules := []
      errors := [] }

/-- The session's saved module files after a generation run: `_save_module`
wrote `content` exactly when the module's generation and save both succeeded
(a failed save is treated as atomic, leaving no file). -/
def filesOf (gen : String → Except String String)
    (save : String → String → Except String Unit) (n : String) : Option String :=
  match moduleRun gen save n with
  | .ok c => some c
  | .error _ => Option.none

/-- `_generate_consolidated_report`, lines 649-658: collect the contents of
the modules whose result slot says `'success'` and whose file exists. -/
def modulesContent (r : GenResults) (files : String → Option String) :
    List (String × String) :=
  modules_list.foldl
    (fun acc n =>
      if entryStatus (List.lookup n r.modules) = "success" then
        match files n with
        | some c => acc ++ [(n, c)]
        | Option.none => acc
      else acc)
    []

/-- Round `num / den` half-to-even to the nearest integer. -/
def roundHalfEven (num den : Nat) : Nat :=
  let q := num / den
  let r := num % den
  if 2 * r < den then q
  else if den < 2 * r then q + 1
  else if q % 2 = 0 then q else q + 1

/-- Models the f-string `f"{(s/t*100):.1f}"` of line 713. For `t = 16` (the
only value reachable from `generate_all_modules`) every intermediate float
`s*6.25` is binary-exact, so the float formatting agrees with decimal
round-half-even of the exact rational, computed here in tenths of a percent. -/
def formatRatio (s t : Nat) : String :=
  let tenths := roundHalfEven (s * 1000) t
  toString (tenths / 10) ++ "." ++ toString (tenths % 10)

/-- The title of a module section: `module_name.replace('_', ' ').title()`
(lines 689, 696). -/
def moduleTitle (n : String) : String :=
  pyTitle (pyReplaceUnderscore n)

/-- The status marker of line 688. -/
def statusIcon (r : GenResults) (n : String) : String :=
  if entryStatus (List.lookup n r.modules) = "success" then "✅" else "❌"

/-- The numbered marker lines of the `### Módulos Incluídos:` list
(lines 686-690), one per registry name, in registry order. -/
def markerLines (r : GenResults) : List String :=
  modules_list.enum.map
    (fun p =>
      toString (p.1 + 1) ++ ". " ++ statusIcon r p.2 ++ " "
        ++ moduleTitle p.2 ++ "\n")

/-- One body section (lines 694-699). -/
def moduleSection (n content : String) : String :=
  "## " ++ moduleTitle n ++ "\n\n" ++ content ++ "\n\n---\n\n"

/-- The report body (lines 694-699): iterate the registry in order and
append a section for every module present in `modules_content`. -/
def reportBody (mc : List (String × String)) : String :=
  String.join
    (modules_list.filterMap
      (fun n => (List.lookup n mc).map (moduleSection n)))

/-- Everything of the report before the first timestamp (lines 675-676). -/
def reportPart1 (sid : String) : String :=
  "# RELATÓRIO FINAL CONSOLIDADO - ARQV30 Enhanced v3.0\n\n"
    ++ "**Sessão:** " ++ sid ++ "  \n"
    ++ "**Gerado em:** "

/-- Everything between the two timestamps (lines 678-706): header counters,
executive summary, marker list, body sections, and the start of the
technical-information block. -/
def reportPart2 (sid : String) (r : GenResults) (mc : List (String × String)) :
    String :=
  "  \n"
    ++ "**Módulos Gerados:** " ++ toString r.successful_modules ++ "/"
    ++ toString r.total_modules ++ "\n\n"
    ++ "---\n\n"
    ++ "## SUMÁRIO EXECUTIVO\n\n"
    ++ "Este relatório consolidado apresenta a análise ultra-detalhada realizada pelo sistema ARQV30 Enhanced v3.0, contemplando \x7blen(self.modules_list)\x7d módulos especializados de análise estratégica.\n\n"
    ++ "### Módulos Incluídos:\n"
    ++ String.join (markerLines r)
    ++ "\n---\n\n"
    ++ reportBody mc
    ++ "\n## INFORMAÇÕES TÉCNICAS\n\n"
    ++ "**Sistema:** ARQV30 Enhanced v3.0  \n"
    ++ "**Sessão:** " ++ sid ++ "  \n"
    ++ "**Data de Geração:** "

/-- Everything after the second timestamp (lines 707-718): processed counts,
status word, generation statistics with the one-decimal success percentage. -/
def reportPart3 (r : GenResults) : String :=
  "  \n"
    ++ "**Módulos Processados:** " ++ toString r.successful_modules ++ "/"
    ++ toString r.total_modules ++ "  \n"
    ++ "**Status:** " ++ (if r.failed_modules = 0 then "Completo" else "Parcial")
    ++ "\n\n### Estatísticas de Geração:\n"
    ++ "- ✅ Sucessos: " ++ toString r.successful_modules ++ "\n"
    ++ "- ❌ Falhas: " ++ toString r.failed_modules ++ "\n"
    ++ "- 📊 Taxa de Sucesso: "
    ++ formatRatio r.successful_modules r.total_modules ++ "%\n\n"
    ++ "---\n\n"
    ++ "*Relatório gerado automaticamente pelo ARQV30 Enhanced v3.0*\n"

/-- `_build_consolidated_report` (lines 673-720). The two `datetime.now()`
calls of lines 677 and 706 are the injected `t1` and `t2`; the `+=`
concatenation chain of the source is split at exactly those two points. -/
def build_consolidated_report (sid : String) (r : GenResults)
    (mc : List (String × String)) (t1 t2 : String) : String :=
  reportPart1 sid ++ t1 ++ reportPart2 sid r mc ++ t2 ++ reportPart3 r

/-- The composed pipeline of `generate_all_modules` followed by
`_generate_consolidated_report` (line 507 then 661): the consolidated report
built from the run's results and the files the run saved. -/
def consolidatedReportOf (gen : String → Except String String)
    (save : String → String → Except String Unit)
    (sid now t1 t2 : String) : String :=
  build_consolidated_report sid (generate_all_modules gen save sid now)
    (modulesContent (generate_all_modules gen save sid now) (filesOf gen save))
    t1 t2

/-! ## `ARQV40EnhancedOrchestrator` (src/services/arqv40_enhanced_orchestrator.py)

External collaborators are injected through the `Collab` record. The
collaborators absent from `src/` (`alibaba_websailor`, `supadata_client`,
`visual_content_capture`, `enhanced_ai_manager`,
`comprehensive_report_generator_v3`) appear only through the outcome of the
single call the orchestrator makes to each; so does
`enhanced_module_processor.process_all_modules` — a method the processor class
does not define, so at runtime that call raises `AttributeError`, which is one
possible value of the injected outcome. `_generate_massive_md_report`
(lines 386-518) is also injected as an outcome: its body only formats the
already-collected data into a string (including float formatting, which has no
shallow embedding) and persists it; no claim concerns its text, and keeping it
as an `Except` outcome preserves the fact that it can raise inside the stage's
`try`. `list(set(urls))` of line 380 is injected as `pySet`, since the CPython
set order for strings is not specified (and is randomized per process). -/

/-- The injected collaborator outcomes of one pipeline run. -/
structure Collab where
  websailor : Except String PyVal
  supadataAvailable : Bool
  search : Except String PyVal
  profilesAnalytics : Except String PyVal
  hashtagAnalytics : Except String PyVal
  visualCapture : List PyVal → Except String PyVal
  massReport : Except String String
  pySet : List PyVal → List PyVal
  aiAvailable : Bool
  studyCall : Except String String
  jsonParse : String → Except String PyVal
  processModules : Except String PyVal
  compileReport : Except String PyVal
  now : String

/-- The `try` body of `_extract_urls_from_results` (lines 365-380): collect
the URLs of the WebSailor detailed sources and of the first 10 Supadata posts. -/
def extractUrlsBody (websailor_results supadata_results : PyVal) :
    Except String (List PyVal) := do
  let cc ← pvGet websailor_results "conteudo_consolidado"
  let urls1 ←
    if truthy cc then do
      let ccv ← pvIndex websailor_results "conteudo_consolidado"
      let fontes ← pvGetD ccv "fontes_detalhadas" (.list [])
      let fs ← pvIterList fontes
      fs.foldlM
        (fun acc fonte => do
          let u ← pvGet fonte "url"
          if truthy u then do
            let uv ← pvIndex fonte "url"
            pure (acc ++ [uv])
          else pure acc)
        ([] : List PyVal)
    else pure []
  let s1 ← pvGet supadata_results "success"
  let cond ←
    if truthy s1 then do
      let s2 ← pvGet supadata_results "posts"
      pure (truthy s2)
    else pure false
  let urls2 ←
    if cond then do
      let posts ← pvIndex supadata_results "posts"
      let sliced ← pvSlice10 posts
      let ps ← pvIterList sliced
      ps.foldlM
        (fun acc post => do
          let u ← pvGet post "url"
          if truthy u then do
            let uv ← pvIndex post "url"
            pure (acc ++ [uv])
          else pure acc)
        ([] : List PyVal)
    else pure []
  pure (urls1 ++ urls2)

/-- `_extract_urls_from_results` (lines 357-384): on any exception the
`except` branch returns `[]`; otherwise `list(set(urls))`, modelled by the
injected `pySet`. -/
def extract_urls (pySet : List PyVal → List PyVal)
    (websailor_results supadata_results : PyVal) : List PyVal :=
  match extractUrlsBody websailor_results supadata_results with
  | .ok urls => pySet urls
  | .error _ => []

/-- The success payload of ETAPA 1 (lines 197-206). -/
structure Etapa1Ok where
  websailor_data : PyVal
  supadata_data : PyVal
  visual_data : PyVal
  relatorio_gigante : String
  total_urls_captured : Nat
  screenshots_count : PyVal
  timestamp : String

/-- Result of `_execute_etapa1_coleta_massiva`. -/
inductive Etapa1Result where
  | ok (r : Etapa1Ok)
  | err (msg : String)

/-- The `success` flag of an ETAPA 1 result dict. -/
def Etapa1Result.success : Etapa1Result → Bool
  | .ok _ => true
  | .err _ => false

/-- The `relatorio_gigante` entry (present exactly on success; line 72 only
reads it after the success guard). -/
def Etapa1Result.relatorio : Etapa1Result → String
  | .ok r => r.relatorio_gigante
  | .err _ => ""

/-- The Supadata failure dict of line 177. -/
def supadataFailDict : PyVal :=
  .dict [("success", .bool false), ("error", .str "Supadata não configurado")]

/-- The visual-capture failure dict of line 190. -/
def visualFailDict : PyVal :=
  .dict [("success", .bool false), ("error", .str "Nenhuma URL encontrada")]

/-- The `try` body of `_execute_etapa1_coleta_massiva` (lines 146-206):
WebSailor, then Supadata (with profile/hashtag enrichment when the search
reports success), then URL extraction, visual capture on the first 15 URLs,
and the massive report. -/
def etapa1Body (c : Collab) : Except String Etapa1Ok := do
  let ws ← c.websailor
  let supa ←
    if c.supadataAvailable then do
      let s ← c.search
      let flag ← pvGet s "success"
      if truthy flag then do
        let p ← c.profilesAnalytics
        let h ← c.hashtagAnalytics
        pvUpdate s [("profiles_analytics", p), ("hashtag_analytics", h)]
      else pure s
    else
      pure supadataFailDict
  let all_urls := extract_urls c.pySet ws supa
  let visual ←
    if all_urls.isEmpty then
      pure visualFailDict
    else c.visualCapture (all_urls.take 15)
  let relatorio ← c.massReport
  let shots ← pvGetD visual "successful_captures" (.int 0)
  pure
    { websailor_data := ws
      supadata_data := supa
      visual_data := visual
      relatorio_gigante := relatorio
      total_urls_captured := all_urls.length
      screenshots_count := shots
      timestamp := c.now }

/-- `_execute_etapa1_coleta_massiva` (lines 124-210): the `except` branch
turns any raise into `{"success": False, "error": str(e)}`. -/
def etapa1 (c : Collab) : Etapa1Result :=
  match etapa1Body c with
  | .ok r => .ok r
  | .error e => .err e

/-- The `json_text` slice of lines 527-529: from just after the first
occurrence of the fenced `"```json"` marker to the last occurrence of
three backticks, stripped. -/
def extractedPayload (study_result : String) : String :=
  pyStrip
    (pySlice study_result (pyFind study_result "```json" + 7)
      (pyRFind study_result "```"))

/-- The error dict returned at line 550 when `json.loads` raises. -/
def studyErrorDict (e study_result : String) : PyVal :=
  .dict
    [ ("error", .str e)
    , ("raw_study", .str (pySlice study_result 0 1000)) ]

/-- The fixed fallback context of lines 533-546. -/
def studyFallbackDict (study_result : String) : PyVal :=
  .dict
    [ ("contexto_aprofundado",
         .dict
           [ ("mercado_detalhado",
              .str "Análise baseada no estudo do relatório gigante")
           , ("publico_refinado", .str "Perfil refinado através da IA")
           , ("concorrencia_mapeada", .str "Mapeamento via análise profunda")
           , ("oportunidades_descobertas",
              .list [.str "Oportunidades identificadas no estudo"])
           , ("tendencias_validadas",
              .list [.str "Tendências validadas pela IA"])
           , ("insights_exclusivos", .list [.str "Insights únicos do estudo"])
           , ("expertise_level", .str "EXPERT")
           , ("tempo_estudo", .str "300 segundos") ])
      , ("raw_study", .str (pySlice study_result 0 2000))
      , ("fallback_mode", .bool true) ]

/-- `_process_study_result` (lines 520-550), with `json.loads` injected as
`parse`. If the fenced `"```json"` marker occurs in the text, slice out the
payload and parse it: on success the parsed value is returned unmodified, and
a parse exception yields the `{"error": …, "raw_study": text[:1000]}` dict of
line 550 (the inner `except` also catches it, so the caller never sees a
raise). Without the marker, the fixed fallback context with
`fallback_mode=True` and the raw text capped at 2000 characters. -/
def processStudyResult (parse : String → Except String PyVal)
    (study_result : String) : PyVal :=
  if pyFind study_result "```json" ≥ 0 then
    match parse (extractedPayload study_result) with
    | .ok v => v
    | .error e => studyErrorDict e study_result
  else studyFallbackDict study_result

/-- Field lookup on a dict value (`None`-free observation helper used only in
theorem statements). -/
def pvField (v : PyVal) (k : String) : Option PyVal :=
  match v with
  | .dict kvs => pvLookup kvs k
  | _ => Option.none

/-- `_count_searches` (lines 552-559). -/
def countSearches (text : String) : Nat :=
  let lowered := pyLower text
  max
    (pyCount lowered "busca realizada" + pyCount lowered "search performed"
      + pyCount lowered "dados encontrados")
    1

/-- The success payload of ETAPA 2 (lines 301-308); the wall-clock
`tempo_estudo` measurement is not modelled. -/
structure Etapa2Ok where
  contexto_aprofundado : PyVal
  buscas_realizadas : Nat
  context_path : String
  timestamp : String

/-- Result of `_execute_etapa2_estudo_profundo`. -/
inductive Etapa2Result where
  | ok (r : Etapa2Ok)
  | err (msg : String)

/-- The `success` flag of an ETAPA 2 result dict. -/
def Etapa2Result.success : Etapa2Result → Bool
  | .ok _ => true
  | .err _ => false

/-- The `contexto_aprofundado` entry (read at line 81 after the guard). -/
def Etapa2Result.contexto : Etapa2Result → PyVal
  | .ok r => r.contexto_aprofundado
  | .err _ => .none

/-- The `try` body of `_execute_etapa2_estudo_profundo` (lines 222-308):
guard on the AI manager, one search-augmented generation call (injected
outcome `studyCall`), then `_process_study_result`; persistence of the
context is modelled as succeeding. -/
def etapa2Body (c : Collab) (sid _relatorio_gigante : String) :
    Except String Etapa2Ok := do
  if !c.aiAvailable then throw "Enhanced AI Manager não disponível"
  let study_result ← c.studyCall
  let contexto := processStudyResult c.jsonParse study_result
  pure
    { contexto_aprofundado := contexto
      buscas_realizadas := countSearches study_result
      context_path := "analyses_data/" ++ sid ++ "/contexto_aprofundado.json"
      timestamp := c.now }

/-- `_execute_etapa2_estudo_profundo` (lines 212-312). -/
def etapa2 (c : Collab) (sid relatorio_gigante : String) : Etapa2Result :=
  match etapa2Body c sid relatorio_gigante with
  | .ok r => .ok r
  | .error e => .err e

/-- The success payload of ETAPA 3 (lines 342-351). -/
structure Etapa3Ok where
  modulos_gerados : PyVal
  modulos_count : Nat
  relatorio_path : PyVal
  estatisticas_relatorio : PyVal
  modules_result : PyVal
  final_report : PyVal
  timestamp : String

/-- Result of `_execute_etapa3_relatorio_final`. -/
inductive Etapa3Result where
  | ok (r : Etapa3Ok)
  | err (msg : String)

/-- The `success` flag of an ETAPA 3 result dict. -/
def Etapa3Result.success : Etapa3Result → Bool
  | .ok _ => true
  | .err _ => false

/-- `etapa3_result.get("relatorio_path")` (line 95): `None` on the failure
dict. -/
def Etapa3Result.relatorioPath : Etapa3Result → PyVal
  | .ok r => r.relatorio_path
  | .err _ => .none

/-- `etapa3_result.get("modulos_count", 0)` (lines 96, 104). -/
def Etapa3Result.modulosCount : Etapa3Result → Nat
  | .ok r => r.modulos_count
  | .err _ => 0

/-- The `try` body of `_execute_etapa3_relatorio_final` (lines 323-351):
call the module processor (injected outcome `processModules` — at runtime the
named method does not exist, so the call raises `AttributeError`, one of the
covered outcomes), guard on its `success` flag, call the report compiler,
guard on its flag, and assemble the success dict. -/
def etapa3Body (c : Collab) (_contexto_aprofundado : PyVal) :
    Except String Etapa3Ok := do
  let mr ← c.processModules
  let flag ← pvGet mr "success"
  if !truthy flag then throw "Falha na geração dos módulos"
  let fr ← c.compileReport
  let flag2 ← pvGet fr "success"
  if !truthy flag2 then throw "Falha na compilação do relatório final"
  let mg ← pvGetD mr "modules_generated" (.list [])
  let cnt ← pvLen mg
  let rp ← pvGet fr "report_path"
  let stats ← pvGet fr "estatisticas_relatorio"
  pure
    { modulos_gerados := mg
      modulos_count := cnt
      relatorio_path := rp
      estatisticas_relatorio := stats
      modules_result := mr
      final_report := fr
      timestamp := c.now }

/-- `_execute_etapa3_relatorio_final` (lines 314-355). -/
def etapa3 (c : Collab) (contexto_aprofundado : PyVal) : Etapa3Result :=
  match etapa3Body c contexto_aprofundado with
  | .ok r => .ok r
  | .error e => .err e

/-- The success dict of `execute_complete_analysis` (lines 87-98); the
wall-clock `tempo_total` is not modelled. -/
structure FinalOk where
  session_id : String
  etapa1_dados : Etapa1Result
  etapa2_estudo : Etapa2Result
  etapa3_relatorio : Etapa3Result
  relatorio_final_path : PyVal
  modulos_gerados : Nat
  timestamp : String

/-- Result of `execute_complete_analysis`: the `except` branch of
lines 108-122 returns `{"success": False, "error": str(e), "session_id",
"timestamp"}`. -/
inductive FinalResult where
  | ok (r : FinalOk)
  | err (msg sid : String)

/-- The top-level `success` flag. -/
def FinalResult.success : FinalResult → Bool
  | .ok _ => true
  | .err _ _ => false

/-- The `try` body of `execute_complete_analysis` (lines 59-106): guard on
ETAPA 1's flag, guard on ETAPA 2's flag, run ETAPA 3 — whose flag is never
checked — and assemble the success dict; `salvar_etapa` is modelled as
succeeding. -/
def executeBody (c : Collab) (sid : String) : Except String FinalOk := do
  let r1 := etapa1 c
  if !r1.success then throw "Falha na Etapa 1: Coleta Massiva"
  let r2 := etapa2 c sid r1.relatorio
  if !r2.success then throw "Falha na Etapa 2: Estudo Profundo"
  let r3 := etapa3 c r2.contexto
  pure
    { session_id := sid
      etapa1_dados := r1
      etapa2_estudo := r2
      etapa3_relatorio := r3
      relatorio_final_path := r3.relatorioPath
      modulos_gerados := r3.modulosCount
      timestamp := c.now }

/-- `execute_complete_analysis` (lines 38-122); the `produto`, `nicho` and
`publico` inputs only feed collaborator calls and the error sink, so the
session id is the one input the control flow reads. -/
def execute_complete_analysis (c : Collab) (sid : String) : FinalResult :=
  match executeBody c sid with
  | .ok r => .ok r
  | .error e => .err e sid

/-! ## Support definitions for the theorems -/

/-- The module entry that `generate_all_modules` records for name `n`. -/
def entryOf (gen : String → Except String String)
    (save : String → String → Except String Unit) (now n : String) :
    ModuleEntry :=
  match moduleRun gen save n with
  | .ok c => .success c.length now
  | .error e => .error e now

/-- Whether module `n`'s generation-and-save succeeded. -/
def isOkRun (gen : String → Except String String)
    (save : String → String → Except String Unit) (n : String) : Bool :=
  match moduleRun gen save n with
  | .ok _ => true
  | .error _ => false

/-- The error-list entry recorded for a failed module, if any. -/
def errEntryOf (gen : String → Except String String)
    (save : String → String → Except String Unit) (n : String) :
    Option String :=
  match moduleRun gen save n with
  | .ok _ => Option.none
  | .error e => some ("Erro ao gerar módulo " ++ n ++ ": " ++ e)

/-- What CPython's `list(set(urls))` guarantees on a given input list:
duplicate-free output with exactly the input's elements. The iteration
order of a `set` of strings is not part of the language's contract (string
hashing is even randomized per process), so the order of the output is not
constrained. -/
def PySetOkOn (f : List PyVal → List PyVal) (l : List PyVal) : Prop :=
  (f l).Nodup ∧ ∀ x, x ∈ f l ↔ x ∈ l

/-- Insertion-order deduplication: keep the first occurrence of each element.
This is the "dedup preserving first-encounter order" the claims describe. -/
def dedupFirst {α : Type} [DecidableEq α] (l : List α) : List α :=
  l.foldl (fun acc x => if x ∈ acc then acc else acc ++ [x]) []

/-- The string values of a list of Python values. -/
def strsOf (l : List PyVal) : List String :=
  l.filterMap (fun x => match x with | .str s => some s | _ => Option.none)

/-- Canonical WebSailor payload whose detailed sources carry the given URLs
(the shape read by lines 367-371). -/
def websailorOf (urls : List String) : PyVal :=
  .dict
    [ ("conteudo_consolidado",
       .dict
         [ ("fontes_detalhadas",
            .list (urls.map (fun u => .dict [("url", .str u)]))) ]) ]

/-- Canonical successful Supadata payload whose posts carry the given URLs
(the shape read by lines 374-377). -/
def supadataOf (urls : List String) : PyVal :=
  .dict
    [ ("success", .bool true)
    , ("posts", .list (urls.map (fun u => .dict [("url", .str u)]))) ]

/-- The URL list accumulated by the `try` body of
`_extract_urls_from_results` before deduplication (empty when the body
raises). -/
def bodyUrlsOf (websailor_results supadata_results : PyVal) : List PyVal :=
  match extractUrlsBody websailor_results supadata_results with
  | .ok urls => urls
  | .error _ => []

/-- A collaborator record in which every data source returns a payload whose
`success` flag is false, no call raises, and the module-processor call fails
(as the shipped code's `process_all_modules` call does, the method being
undefined on `EnhancedModuleProcessor`). -/
def cAllFail : Collab :=
  { websailor := .ok (.dict [("success", .bool false)])
    supadataAvailable := false
    search := .error "unused"
    profilesAnalytics := .error "unused"
    hashtagAnalytics := .error "unused"
    visualCapture := fun _ => .error "unused"
    massReport := .ok "RELATÓRIO GIGANTE"
    pySet := fun l => l
    aiAvailable := true
    studyCall := .ok "estudo sem marcador"
    jsonParse := jsonLoads
    processModules :=
      .error "AttributeError: 'EnhancedModuleProcessor' object has no attribute 'process_all_modules'"
    compileReport := .error "unused"
    now := "01/01/2026 00:00:00" }

/-- A collaborator record used to exercise the happy collection path with
two WebSailor URLs and an unavailable Supadata. -/
def cTwoUrls : Collab :=
  { cAllFail with
    websailor := .ok (websailorOf ["https://a.example", "https://b.example"])
    visualCapture := fun us => .ok (.dict [("successful_captures", .int (us.length : Int))]) }

/-- A study text with the fenced marker around a well-formed payload. -/
def studyTextOkJson : String := "```json\n\x7b\"a\": 1\x7d\n```"

/-- A study text with the fenced marker around a malformed payload. -/
def studyTextBadJson : String := "```json\nnot json\n```"

/-- A study text without the fenced marker. -/
def studyTextNoMarker : String := "estudo sem marcador"

/-! ## Helper lemmas -/

theorem modules_list_nodup : modules_list.Nodup := by decide

theorem modules_list_length : modules_list.length = 16 := by decide

/-- Characterization of the `generate_all_modules` fold from an arbitrary
accumulator. -/
theorem genStep_fold (gen : String → Except String String)
    (save : String → String → Except String Unit) (now : String)
    (l : List String) :
    ∀ acc : GenResults,
      l.foldl (genStep gen save now) acc =
        { acc with
          modules := acc.modules ++ l.map (fun n => (n, entryOf gen save now n))
          successful_modules :=
            acc.successful_modules
              + (l.filter (fun n => isOkRun gen save n)).length
          failed_modules :=
            acc.failed_modules
              + (l.filter (fun n => !isOkRun gen save n)).length
          errors := acc.errors ++ l.filterMap (errEntryOf gen save) } := by
  induction l with
  | nil => intro acc; simp
  | cons n l ih =>
      intro acc
      simp only [List.foldl_cons, List.map_cons, List.filter_cons,
        List.filterMap_cons, ih]
      cases h : moduleRun gen save n with
      | ok c =>
          simp [genStep, entryOf, isOkRun, errEntryOf, h, Nat.add_assoc,
            Nat.add_comm 1]
      | error e =>
          simp [genStep, entryOf, isOkRun, errEntryOf, h, Nat.add_assoc,
            Nat.add_comm 1]

theorem gen_modules_eq (gen : String → Except String String)
    (save : String → String → Except String Unit) (sid now : String) :
    (generate_all_modules gen save sid now).modules
      = modules_list.map (fun n => (n, entryOf gen save now n)) := by
  simp [generate_all_modules, genStep_fold]

theorem gen_success_eq (gen : String → Except String String)
    (save : String → String → Except String Unit) (sid now : String) :
    (generate_all_modules gen save sid now).successful_modules
      = (modules_list.filter (fun n => isOkRun gen save n)).length := by
  simp [generate_all_modules, genStep_fold]

theorem gen_failed_eq (gen : String → Except String String)
    (save : String → String → Except String Unit) (sid now : String) :
    (generate_all_modules gen save sid now).failed_modules
      = (modules_list.filter (fun n => !isOkRun gen save n)).length := by
  simp [generate_all_modules, genStep_fold]

theorem gen_total_eq (gen : String → Except String String)
    (save : String → String → Except String Unit) (sid now : String) :
    (generate_all_modules gen save sid now).total_modules = 16 := by
  simp [generate_all_modules, genStep_fold, modules_list_length]

/-- Lookup in an association list keyed by the list itself. -/
theorem lookup_map_self {β : Type} (f : String → β) :
    ∀ (l : List String) (n : String), n ∈ l →
      List.lookup n (l.map fun m => (m, f m)) = some (f n) := by
  intro l
  induction l with
  | nil => intro n hn; cases hn
  | cons m l ih =>
      intro n hn
      by_cases h : n = m
      · subst h; simp [List.lookup_cons]
      · rcases List.mem_cons.mp hn with rfl | hn
        · exact absurd rfl h
        · simpa [List.lookup_cons, beq_false_of_ne h] using ih n hn

/-- Lookup misses an association list built from keys it is not among. -/
theorem lookup_fmap_not_mem {β : Type} (g : String → Option β) :
    ∀ (l : List String) (n : String), n ∉ l →
      List.lookup n (l.filterMap fun m => (g m).map (fun b => (m, b)))
        = Option.none := by
  intro l
  induction l with
  | nil => intro n _; simp
  | cons m l ih =>
      intro n hn
      have hnm : n ≠ m := fun h => hn (h ▸ List.mem_cons_self m l)
      have hnl : n ∉ l := fun h => hn (List.mem_cons_of_mem m h)
      cases hg : g m with
      | none => simpa [List.filterMap_cons, hg] using ih n hnl
      | some b =>
          simpa [List.filterMap_cons, hg, List.lookup_cons,
            beq_false_of_ne hnm] using ih n hnl

/-- Lookup in an association list built by `filterMap` over duplicate-free
keys returns exactly the generator's value. -/
theorem lookup_fmap_self {β : Type} (g : String → Option β) :
    ∀ (l : List String), l.Nodup → ∀ n ∈ l,
      List.lookup n (l.filterMap fun m => (g m).map (fun b => (m, b)))
        = g n := by
  intro l
  induction l with
  | nil => intro _ n hn; cases hn
  | cons m l ih =>
      intro hnd n hn
      have hml : m ∉ l := (List.nodup_cons.mp hnd).1
      have hndl : l.Nodup := (List.nodup_cons.mp hnd).2
      by_cases h : n = m
      · subst h
        cases hg : g n with
        | none =>
            simpa [List.filterMap_cons, hg] using lookup_fmap_not_mem g l n hml
        | some b => simp [List.filterMap_cons, hg, List.lookup_cons]
      · rcases List.mem_cons.mp hn with rfl | hn
        · exact absurd rfl h
        · cases hg : g m with
          | none => simpa [List.filterMap_cons, hg] using ih hndl n hn
          | some b =>
              simpa [List.filterMap_cons, hg, List.lookup_cons,
                beq_false_of_ne h] using ih hndl n hn

/-- The `modulesContent` fold as a `filterMap`. -/
theorem modulesContent_fold (r : GenResults) (files : String → Option String)
    (l : List String) :
    ∀ acc : List (String × String),
      l.foldl
        (fun acc n =>
          if entryStatus (List.lookup n r.modules) = "success" then
            match files n with
            | some c => acc ++ [(n, c)]
            | Option.none => acc
          else acc)
        acc
      = acc
        ++ l.filterMap
            (fun n =>
              (if entryStatus (List.lookup n r.modules) = "success" then
                  files n
                else Option.none).map
                (fun c => (n, c))) := by
  induction l with
  | nil => intro acc; simp
  | cons n l ih =>
      intro acc
      simp only [List.foldl_cons, List.filterMap_cons]
      by_cases hs : entryStatus (List.lookup n r.modules) = "success"
      · cases hf : files n with
        | none => simp [hs, hf, ih]
        | some c => simp [hs, hf, ih]
      · simp [hs, ih]

theorem modulesContent_eq (r : GenResults) (files : String → Option String) :
    modulesContent r files
      = modules_list.filterMap
          (fun n =>
            (if entryStatus (List.lookup n r.modules) = "success" then
                files n
              else Option.none).map
              (fun c => (n, c))) := by
  simpa [modulesContent] using
    modulesContent_fold r files modules_list []

/-- After a generation run, the result slot of each registry name is exactly
the entry determined by its generation-and-save outcome. -/
theorem gen_lookup_eq (gen : String → Except String String)
    (save : String → String → Except String Unit) (sid now : String)
    (n : String) (hn : n ∈ modules_list) :
    List.lookup n (generate_all_modules gen save sid now).modules
      = some (entryOf gen save now n) := by
  rw [gen_modules_eq]
  exact lookup_map_self _ modules_list n hn

/-- The status string recorded for a module reflects its outcome. -/
theorem entryStatus_entryOf (gen : String → Except String String)
    (save : String → String → Except String Unit) (now n : String) :
    entryStatus (some (entryOf gen save now n))
      = (if isOkRun gen save n then "success" else "error") := by
  cases h : moduleRun gen save n <;> simp [entryOf, entryStatus, isOkRun, h]

/-- After the composed generation-and-consolidation pipeline, the content
recorded for each registry name is exactly the file its successful
generation saved. -/
theorem modulesContent_lookup (gen : String → Except String String)
    (save : String → String → Except String Unit) (sid now : String)
    (n : String) (hn : n ∈ modules_list) :
    List.lookup n
        (modulesContent (generate_all_modules gen save sid now)
          (filesOf gen save))
      = filesOf gen save n := by
  rw [modulesContent_eq]
  refine (lookup_fmap_self _ modules_list modules_list_nodup n hn).trans ?_
  show (if entryStatus
          (List.lookup n (generate_all_modules gen save sid now).modules)
          = "success" then filesOf gen save n else Option.none)
      = filesOf gen save n
  rw [gen_lookup_eq gen save sid now n hn, entryStatus_entryOf]
  cases h : moduleRun gen save n <;> simp [isOkRun, filesOf, h]

/-- The consolidated report body of the composed pipeline: exactly one
section per successfully generated module, in registry order, carrying that
module's content. -/
theorem reportBody_pipeline (gen : String → Except String String)
    (save : String → String → Except String Unit) (sid now : String) :
    reportBody
        (modulesContent (generate_all_modules gen save sid now)
          (filesOf gen save))
      = String.join
          (modules_list.filterMap
            (fun n =>
              match moduleRun gen save n with
              | .ok c => some (moduleSection n c)
              | .error _ => Option.none)) := by
  unfold reportBody
  congr 1
  refine List.filterMap_congr (fun n hn => ?_)
  rw [modulesContent_lookup gen save sid now n hn]
  cases h : moduleRun gen save n <;> simp [filesOf, h]

/-- The marker line of each registry name reflects that module's outcome. -/
theorem markerLines_pipeline (gen : String → Except String String)
    (save : String → String → Except String Unit) (sid now : String) :
    markerLines (generate_all_modules gen save sid now)
      = modules_list.enum.map
          (fun p =>
            toString (p.1 + 1) ++ ". "
              ++ (if isOkRun gen save p.2 then "✅" else "❌") ++ " "
              ++ moduleTitle p.2 ++ "\n") := by
  unfold markerLines
  refine List.map_congr_left (fun p hp => ?_)
  have hmem : p.2 ∈ modules_list := by
    have := List.mem_enum_iff_get?.mp hp
    exact List.get?_mem this
  unfold statusIcon
  rw [gen_lookup_eq gen save sid now p.2 hmem, entryStatus_entryOf]
  by_cases h : isOkRun gen save p.2 <;> simp [h]

/-- A `filterMap` keeps as many elements as the filter of its domain. -/
theorem length_filterMap_eq_length_filter {α β : Type} (f : α → Option β) :
    ∀ l : List α,
      (l.filterMap f).length = (l.filter (fun a => (f a).isSome)).length := by
  intro l
  induction l with
  | nil => simp
  | cons a l ih =>
      cases h : f a <;>
        simp [List.filterMap_cons, List.filter_cons, h, ih]

/-- The one-decimal percentage of line 713: the printed value `q/10` is
within half a tenth of the exact ratio `s/16 * 100`. -/
theorem formatRatio_sixteen (s : Nat) :
    ∃ q, formatRatio s 16 = toString (q / 10) ++ "." ++ toString (q % 10)
      ∧ 16 * q ≤ 1000 * s + 8 ∧ 1000 * s ≤ 16 * q + 8 := by
  refine ⟨roundHalfEven (s * 1000) 16, rfl, ?_, ?_⟩ <;>
    · simp only [roundHalfEven]
      split_ifs <;> omega

/-- The `dedupFirst` fold from an arbitrary duplicate-free accumulator. -/
theorem dedupFirst_fold {α : Type} [DecidableEq α] :
    ∀ (l : List α) (acc : List α), acc.Nodup →
      (l.foldl (fun acc x => if x ∈ acc then acc else acc ++ [x]) acc).Nodup
      ∧ ∀ x, x ∈ l.foldl (fun acc x => if x ∈ acc then acc else acc ++ [x]) acc
          ↔ x ∈ acc ∨ x ∈ l := by
  intro l
  induction l with
  | nil => intro acc h; simpa using h
  | cons y l ih =>
      intro acc h
      simp only [List.foldl_cons]
      by_cases hy : y ∈ acc
      · have := ih acc h
        simp only [hy, if_pos]
        refine ⟨this.1, fun x => ?_⟩
        rw [this.2 x]
        constructor
        · rintro (hx | hx)
          · exact Or.inl hx
          · exact Or.inr (List.mem_cons_of_mem y hx)
        · rintro (hx | hx)
          · exact Or.inl hx
          · rcases List.mem_cons.mp hx with rfl | hx
            · exact Or.inl hy
            · exact Or.inr hx
      · have hacc : (acc ++ [y]).Nodup := by
          simp [List.nodup_append, h, hy]
        have := ih (acc ++ [y]) hacc
        simp only [hy, if_neg, not_false_iff]
        refine ⟨this.1, fun x => ?_⟩
        rw [this.2 x]
        simp [List.mem_append, List.mem_cons, or_assoc, or_comm, or_left_comm]
  
/-- `dedupFirst` removes duplicates and keeps exactly the input elements. -/
theorem dedupFirst_spec {α : Type} [DecidableEq α] (l : List α) :
    (dedupFirst l).Nodup ∧ ∀ x, x ∈ dedupFirst l ↔ x ∈ l := by
  have := dedupFirst_fold l [] List.nodup_nil
  simpa [dedupFirst] using this

/-- A list of string values is the `PyVal.str` image of its string parts. -/
theorem eq_map_strsOf :
    ∀ L : List PyVal, (∀ x ∈ L, ∃ s, x = PyVal.str s) →
      L = (strsOf L).map PyVal.str := by
  intro L
  induction L with
  | nil => intro _; simp [strsOf]
  | cons x L ih =>
      intro h
      obtain ⟨s, rfl⟩ := h x (List.mem_cons_self x L)
      have := ih (fun y hy => h y (List.mem_cons_of_mem _ hy))
      simp only [strsOf, List.filterMap_cons]
      simpa [strsOf] using this

/-- `PyVal.str` is injective. -/
theorem pyval_str_injective : Function.Injective PyVal.str := by
  intro a b h
  injection h

/-- A Python slice `s[:n]` has at most `n` characters. -/
theorem pySlice_prefix_length_le (s : String) (n : Nat) :
    (pySlice s 0 (n : Int)).length ≤ n := by
  simp only [pySlice, String.length]
  have h0 : ¬ ((0 : Int) < 0) := by omega
  have h1 : ¬ ((n : Int) < 0) := by omega
  simp only [h0, h1, if_false, List.length_drop, List.length_take]
  omega

/-- Evaluation of the per-source URL collection loop on canonical
`{"url": u}` entries with non-empty URLs. -/
theorem urlFoldM :
    ∀ us : List String, (∀ u ∈ us, u ≠ "") →
      ∀ acc : List PyVal,
        List.foldlM
          (fun acc fonte => do
            let u ← pvGet fonte "url"
            if truthy u then do
              let uv ← pvIndex fonte "url"
              pure (acc ++ [uv])
            else pure acc)
          acc (us.map (fun u => PyVal.dict [("url", PyVal.str u)]))
        = Except.ok (acc ++ us.map PyVal.str) := by
  intro us
  induction us with
  | nil => intro _ acc; simp [pure, Except.pure]
  | cons u us ih =>
      intro h acc
      have hu : u ≠ "" := h u (List.mem_cons_self u us)
      have hrest : ∀ v ∈ us, v ≠ "" := fun v hv =>
        h v (List.mem_cons_of_mem u hv)
      simp only [List.map_cons, List.foldlM_cons]
      have hstep :
          (do
            let uv ← pvGet (PyVal.dict [("url", PyVal.str u)]) "url"
            if truthy uv then do
              let uv2 ← pvIndex (PyVal.dict [("url", PyVal.str u)]) "url"
              pure (acc ++ [uv2])
            else pure acc : Except String (List PyVal))
            = Except.ok (acc ++ [PyVal.str u]) := by
        simp [pvGet, pvIndex, pvLookup, List.lookup_cons, truthy, hu,
          Bind.bind, Except.bind, pure, Except.pure]
      rw [hstep]
      simpa [Bind.bind, Except.bind] using ih hrest (acc ++ [PyVal.str u])

theorem exc_bind_ok {ε α β : Type} (a : α) (f : α → Except ε β) :
    (Except.ok a : Except ε α) >>= f = f a := rfl

theorem exc_pure {ε α : Type} (a : α) :
    (pure a : Except ε α) = Except.ok a := rfl

/-- URL extraction on canonical source payloads: WebSailor contributes all
its source URLs, Supadata only its first ten post URLs. -/
theorem extractUrlsBody_canonical (u1 u2 : List String)
    (h1 : ∀ u ∈ u1, u ≠ "") (h2 : ∀ u ∈ u2, u ≠ "") :
    extractUrlsBody (websailorOf u1) (supadataOf u2)
      = Except.ok ((u1 ++ u2.take 10).map PyVal.str) := by
  have htake : ∀ u ∈ u2.take 10, u ≠ "" := fun u hu =>
    h2 u (List.take_subset 10 u2 hu)
  have e1 : pvGet (websailorOf u1) "conteudo_consolidado"
      = Except.ok (PyVal.dict
          [("fontes_detalhadas",
            PyVal.list (u1.map (fun u => PyVal.dict [("url", PyVal.str u)])))]) :=
    rfl
  have ht1 : truthy (PyVal.dict
      [("fontes_detalhadas",
        PyVal.list (u1.map (fun u => PyVal.dict [("url", PyVal.str u)])))])
      = true := rfl
  have e2 : pvIndex (websailorOf u1) "conteudo_consolidado"
      = Except.ok (PyVal.dict
          [("fontes_detalhadas",
            PyVal.list (u1.map (fun u => PyVal.dict [("url", PyVal.str u)])))]) :=
    rfl
  have e3 : pvGetD (PyVal.dict
        [("fontes_detalhadas",
          PyVal.list (u1.map (fun u => PyVal.dict [("url", PyVal.str u)])))])
        "fontes_detalhadas" (PyVal.list [])
      = Except.ok
          (PyVal.list (u1.map (fun u => PyVal.dict [("url", PyVal.str u)]))) :=
    rfl
  have e4 : pvIterList
        (PyVal.list (u1.map (fun u => PyVal.dict [("url", PyVal.str u)])))
      = Except.ok (u1.map (fun u => PyVal.dict [("url", PyVal.str u)])) := rfl
  have e5 : pvGet (supadataOf u2) "success" = Except.ok (PyVal.bool true) := rfl
  have e6 : pvGet (supadataOf u2) "posts"
      = Except.ok
          (PyVal.list (u2.map (fun u => PyVal.dict [("url", PyVal.str u)]))) :=
    rfl
  have e7 : pvIndex (supadataOf u2) "posts"
      = Except.ok
          (PyVal.list (u2.map (fun u => PyVal.dict [("url", PyVal.str u)]))) :=
    rfl
  unfold extractUrlsBody
  rw [e1, exc_bind_ok, ht1]
  simp only [ite_true]
  rw [e2, exc_bind_ok, e3, exc_bind_ok, e4, exc_bind_ok,
    urlFoldM u1 h1 [], exc_bind_ok, e5, exc_bind_ok]
  have ht2 : truthy (PyVal.bool true) = true := rfl
  rw [ht2]
  simp only [ite_true]
  rw [e6, exc_bind_ok, exc_pure, exc_bind_ok]
  cases u2 with
  | nil =>
      have ht3 : truthy (PyVal.list (List.map
          (fun u => PyVal.dict [("url", PyVal.str u)]) [])) = false := rfl
      rw [ht3]
      simp only [ite_false, exc_pure, exc_bind_ok]
      simp [exc_pure]
  | cons v vs =>
      have ht3 : truthy (PyVal.list (List.map
          (fun u => PyVal.dict [("url", PyVal.str u)]) (v :: vs))) = true := rfl
      rw [ht3]
      simp only [ite_true]
      rw [e7, exc_bind_ok]
      have e8 : pvSlice10 (PyVal.list (List.map
            (fun u => PyVal.dict [("url", PyVal.str u)]) (v :: vs)))
          = Except.ok (PyVal.list (((v :: vs).take 10).map
              (fun u => PyVal.dict [("url", PyVal.str u)]))) := by
        simp [pvSlice10, List.map_take]
      rw [e8, exc_bind_ok]
      have e9 : pvIterList (PyVal.list (((v :: vs).take 10).map
            (fun u => PyVal.dict [("url", PyVal.str u)])))
          = Except.ok (((v :: vs).take 10).map
              (fun u => PyVal.dict [("url", PyVal.str u)])) := rfl
      rw [e9, exc_bind_ok, urlFoldM ((v :: vs).take 10) htake [], exc_bind_ok]
      simp [exc_pure]

theorem exc_bind_err {ε α β : Type} (e : ε) (f : α → Except ε β) :
    (Except.error e : Except ε α) >>= f = Except.error e := rfl

theorem exc_throw {ε α : Type} (e : ε) :
    (throw e : Except ε α) = Except.error e := rfl

/-- If no collaborator call raises, the collection stage body succeeds,
whatever the `success` flags inside the returned payloads say. -/
theorem etapa1Body_ok_of_no_raise (c : Collab) (ws : PyVal) (rep : String)
    (hws : c.websailor = Except.ok ws)
    (hsearch : ∀ _ : c.supadataAvailable = true,
      ∃ sf, c.search = Except.ok (PyVal.dict sf))
    (hprof : ∀ _ : c.supadataAvailable = true,
      ∃ p, c.profilesAnalytics = Except.ok p)
    (hhash : ∀ _ : c.supadataAvailable = true,
      ∃ h, c.hashtagAnalytics = Except.ok h)
    (hvis : ∀ us, ∃ vd, c.visualCapture us = Except.ok (PyVal.dict vd))
    (hrep : c.massReport = Except.ok rep) :
    ∃ r, etapa1Body c = Except.ok r := by
  unfold etapa1Body
  simp only [hws, exc_bind_ok]
  cases hsa : c.supadataAvailable with
  | false =>
      simp only [hsa, Bool.false_eq_true, ite_false, exc_pure, exc_bind_ok]
      by_cases hempty : (extract_urls c.pySet ws supadataFailDict).isEmpty
      · simp only [hempty, ite_true, exc_pure, exc_bind_ok, hrep]
        exact ⟨_, rfl⟩
      · obtain ⟨vd, hvd⟩ :=
          hvis ((extract_urls c.pySet ws supadataFailDict).take 15)
        simp only [hempty, Bool.false_eq_true, ite_false, hvd, exc_bind_ok,
          hrep]
        exact ⟨_, rfl⟩
  | true =>
      obtain ⟨sf, hsf⟩ := hsearch hsa
      simp only [hsa, ite_true, hsf, exc_bind_ok]
      have hg : pvGet (PyVal.dict sf) "success"
          = Except.ok ((pvLookup sf "success").getD PyVal.none) := rfl
      simp only [hg, exc_bind_ok]
      by_cases htf : truthy ((pvLookup sf "success").getD PyVal.none)
      · simp only [htf, ite_true]
        obtain ⟨p, hp⟩ := hprof hsa
        obtain ⟨hh, hhh⟩ := hhash hsa
        simp only [hp, exc_bind_ok, hhh, exc_bind_ok]
        have hupd : pvUpdate (PyVal.dict sf)
            [("profiles_analytics", p), ("hashtag_analytics", hh)]
            = Except.ok (PyVal.dict
                ([("profiles_analytics", p), ("hashtag_analytics", hh)].foldl
                  (fun a q => pvUpdateKey a q.1 q.2) sf)) := rfl
        simp only [hupd, exc_bind_ok]
        set S := PyVal.dict
          ([("profiles_analytics", p), ("hashtag_analytics", hh)].foldl
            (fun a q => pvUpdateKey a q.1 q.2) sf) with hS
        by_cases hempty : (extract_urls c.pySet ws S).isEmpty
        · simp only [hempty, ite_true, exc_pure, exc_bind_ok, hrep]
          exact ⟨_, rfl⟩
        · obtain ⟨vd, hvd⟩ := hvis ((extract_urls c.pySet ws S).take 15)
          simp only [hempty, Bool.false_eq_true, ite_false, hvd, exc_bind_ok,
            hrep]
          exact ⟨_, rfl⟩
      · simp only [htf, Bool.false_eq_true, ite_false, exc_pure, exc_bind_ok]
        by_cases hempty : (extract_urls c.pySet ws (PyVal.dict sf)).isEmpty
        · simp only [hempty, ite_true, exc_pure, exc_bind_ok, hrep]
          exact ⟨_, rfl⟩
        · obtain ⟨vd, hvd⟩ :=
            hvis ((extract_urls c.pySet ws (PyVal.dict sf)).take 15)
          simp only [hempty, Bool.false_eq_true, ite_false, hvd, exc_bind_ok,
            hrep]
          exact ⟨_, rfl⟩

/-- A raising WebSailor call aborts the collection stage with its message. -/
theorem etapa1_err_of_websailor_raise (c : Collab) (e : String)
    (h : c.websailor = Except.error e) : etapa1 c = Etapa1Result.err e := by
  unfold etapa1 etapa1Body
  simp only [h, exc_bind_err]

/-- The study stage succeeds whenever the AI manager is available and the
study call returns, whatever text it returns. -/
theorem etapa2_ok_of_call_ok (c : Collab) (sid rel s : String)
    (hai : c.aiAvailable = true) (hst : c.studyCall = Except.ok s) :
    etapa2 c sid rel
      = Etapa2Result.ok
          { contexto_aprofundado := processStudyResult c.jsonParse s
            buscas_realizadas := countSearches s
            context_path := "analyses_data/" ++ sid ++ "/contexto_aprofundado.json"
            timestamp := c.now } := by
  unfold etapa2 etapa2Body
  simp only [hai, Bool.not_true, Bool.false_eq_true, ite_false, hst,
    exc_bind_ok, exc_pure]

/-! ## Claim C1 -/

/-- C1 counterexample: with every collaborator call returning and the
module-processor call failing (exactly as the shipped code behaves, the
called method being undefined), the generation/compilation stage reports
`success=False`, yet `execute_complete_analysis` returns a result whose
top-level `success` flag is `True` — refuting the claim that a failing
stage always yields a structured failure result. -/
theorem c1_counterexample :
    (execute_complete_analysis cAllFail "s1").success = true
    ∧ (match execute_complete_analysis cAllFail "s1" with
       | .ok r => r.etapa3_relatorio.success = false
       | .err _ _ => False) := by
  exact ⟨rfl, rfl⟩

/-- C1 (amended): the orchestrator guards the collection and study stages —
a false `success` flag from either yields the structured failure result with
the fixed stage message, and no exception escapes (the embedding is total) —
but the generation/compilation stage's flag is never checked: once stages 1
and 2 succeed, the run returns a `success=True` result that merely embeds
stage 3's outcome, even when that outcome is a failure. -/
theorem c1_stage_guard (c : Collab) (sid : String) :
    ((etapa1 c).success = false →
      execute_complete_analysis c sid
        = FinalResult.err "Falha na Etapa 1: Coleta Massiva" sid)
    ∧ ((etapa1 c).success = true →
       (etapa2 c sid (etapa1 c).relatorio).success = false →
        execute_complete_analysis c sid
          = FinalResult.err "Falha na Etapa 2: Estudo Profundo" sid)
    ∧ ((etapa1 c).success = true →
       (etapa2 c sid (etapa1 c).relatorio).success = true →
        execute_complete_analysis c sid
          = FinalResult.ok
              { session_id := sid
                etapa1_dados := etapa1 c
                etapa2_estudo := etapa2 c sid (etapa1 c).relatorio
                etapa3_relatorio :=
                  etapa3 c (etapa2 c sid (etapa1 c).relatorio).contexto
                relatorio_final_path :=
                  (etapa3 c
                    (etapa2 c sid (etapa1 c).relatorio).contexto).relatorioPath
                modulos_gerados :=
                  (etapa3 c
                    (etapa2 c sid (etapa1 c).relatorio).contexto).modulosCount
                timestamp := c.now }) := by
  refine ⟨?_, ?_, ?_⟩
  · intro h1
    unfold execute_complete_analysis executeBody
    simp only [h1, Bool.not_false, ite_true, exc_throw, exc_bind_err]
  · intro h1 h2
    unfold execute_complete_analysis executeBody
    simp only [h1, h2, Bool.not_true, Bool.not_false, Bool.false_eq_true,
      ite_false, ite_true, exc_throw, exc_bind_err, exc_pure, exc_bind_ok]
  · intro h1 h2
    unfold execute_complete_analysis executeBody
    simp only [h1, h2, Bool.not_true, Bool.false_eq_true, ite_false,
      exc_pure, exc_bind_ok]

/-- C1 witness: the amended guard applied at a run whose study stage fails
(AI manager unavailable). -/
theorem c1_stage_guard_witness :
    (etapa1 { cAllFail with aiAvailable := false }).success = true
    ∧ (etapa2 { cAllFail with aiAvailable := false } "s1"
        (etapa1 { cAllFail with aiAvailable := false }).relatorio).success
        = false
    ∧ execute_complete_analysis { cAllFail with aiAvailable := false } "s1"
        = FinalResult.err "Falha na Etapa 2: Estudo Profundo" "s1" :=
  ⟨rfl, rfl,
    (c1_stage_guard { cAllFail with aiAvailable := false } "s1").2.1 rfl rfl⟩

/-! ## Claim C2 -/

/-- C2 counterexample: a run in which zero sources succeed — WebSailor's
payload, the Supadata substitute, and the visual-capture substitute all carry
`success=False` — yet the collection stage reports `success=True`, refuting
the claim that the stage reports overall failure exactly when zero sources
succeed (the code never inspects how many sources succeeded). -/
theorem c2_counterexample :
    (etapa1 cAllFail).success = true
    ∧ (match etapa1 cAllFail with
       | .ok r =>
           pvField r.websailor_data "success" = some (PyVal.bool false)
           ∧ pvField r.supadata_data "success" = some (PyVal.bool false)
           ∧ pvField r.visual_data "success" = some (PyVal.bool false)
       | .err _ => False) := by
  exact ⟨rfl, rfl, rfl, rfl⟩

/-- C2 (amended): a source returning an unsuccessful payload never blocks the
stage — when no collaborator call raises, the stage reports `success=True`
regardless of the success flags in the returned payloads (even when zero
sources succeed) — while a collaborator call that raises (here WebSailor,
the first one invoked) aborts the stage with `success=False`, skipping the
remaining sources. -/
theorem c2_best_effort (c : Collab) (ws : PyVal) (rep : String) :
    (c.websailor = Except.ok ws →
     (∀ _ : c.supadataAvailable = true,
       ∃ sf, c.search = Except.ok (PyVal.dict sf)) →
     (∀ _ : c.supadataAvailable = true,
       ∃ p, c.profilesAnalytics = Except.ok p) →
     (∀ _ : c.supadataAvailable = true,
       ∃ h, c.hashtagAnalytics = Except.ok h) →
     (∀ us, ∃ vd, c.visualCapture us = Except.ok (PyVal.dict vd)) →
     c.massReport = Except.ok rep →
     (etapa1 c).success = true)
    ∧ (∀ e, c.websailor = Except.error e → etapa1 c = Etapa1Result.err e) := by
  constructor
  · intro hws hs hp hh hv hr
    obtain ⟨r, hrr⟩ := etapa1Body_ok_of_no_raise c ws rep hws hs hp hh hv hr
    simp [etapa1, hrr, Etapa1Result.success]
  · intro e he
    exact etapa1_err_of_websailor_raise c e he

/-- C2 witness: the amended claim applied at a concrete run with two
WebSailor URLs and an unavailable Supadata source. -/
theorem c2_best_effort_witness :
    cTwoUrls.websailor
      = Except.ok (websailorOf ["https://a.example", "https://b.example"])
    ∧ cTwoUrls.massReport = Except.ok "RELATÓRIO GIGANTE"
    ∧ (etapa1 cTwoUrls).success = true :=
  ⟨rfl, rfl,
    (c2_best_effort cTwoUrls (websailorOf ["https://a.example", "https://b.example"])
        "RELATÓRIO GIGANTE").1
      rfl (fun h => Bool.noConfusion h) (fun h => Bool.noConfusion h)
      (fun h => Bool.noConfusion h)
      (fun us => ⟨[("successful_captures", PyVal.int (us.length : Int))], rfl⟩)
      rfl⟩

/-! ## Claim C3 -/

/-- C3: per-module isolation in `generate_all_modules`. With `M` the number
of registry modules whose generation (or save) raises, the result map's keys
are exactly the 16 registry names in registry order (each attempted exactly
once), each raising module gets an `'error'` entry under its own name and
each non-raising module a `'success'` entry, the entry counts are `16−M`
successes and `M` errors, and the counters satisfy
`successful_modules = 16−M`, `failed_modules = M`. -/
theorem c3_module_isolation (gen : String → Except String String)
    (save : String → String → Except String Unit) (sid now : String) :
    (generate_all_modules gen save sid now).modules
      = modules_list.map (fun n => (n, entryOf gen save now n))
    ∧ (generate_all_modules gen save sid now).modules.map Prod.fst
        = modules_list
    ∧ (generate_all_modules gen save sid now).total_modules = 16
    ∧ (generate_all_modules gen save sid now).successful_modules
        = 16 - (modules_list.filter (fun n => !isOkRun gen save n)).length
    ∧ (generate_all_modules gen save sid now).failed_modules
        = (modules_list.filter (fun n => !isOkRun gen save n)).length
    ∧ ((generate_all_modules gen save sid now).modules.filter
          (fun p => entryStatus (some p.2) = "success")).length
        = 16 - (modules_list.filter (fun n => !isOkRun gen save n)).length
    ∧ ((generate_all_modules gen save sid now).modules.filter
          (fun p => entryStatus (some p.2) = "error")).length
        = (modules_list.filter (fun n => !isOkRun gen save n)).length := by
  have hsplit : ∀ l : List String,
      (l.filter (fun n => isOkRun gen save n)).length
        + (l.filter (fun n => !isOkRun gen save n)).length = l.length := by
    intro l
    induction l with
    | nil => simp
    | cons n l ih =>
        cases h : isOkRun gen save n <;> simp [List.filter_cons, h, ih] <;>
          omega
  have hsum :
      (modules_list.filter (fun n => isOkRun gen save n)).length
        + (modules_list.filter (fun n => !isOkRun gen save n)).length
        = 16 := by
    rw [hsplit modules_list, modules_list_length]
  have hps : ∀ n ∈ modules_list,
      ((fun p => decide (entryStatus (some p.2) = "success"))
          ∘ (fun n => (n, entryOf gen save now n))) n
        = isOkRun gen save n := by
    intro n _
    cases h : moduleRun gen save n <;>
      simp [entryOf, entryStatus, isOkRun, h, Function.comp]
  have hpe : ∀ n ∈ modules_list,
      ((fun p => decide (entryStatus (some p.2) = "error"))
          ∘ (fun n => (n, entryOf gen save now n))) n
        = !isOkRun gen save n := by
    intro n _
    cases h : moduleRun gen save n <;>
      simp [entryOf, entryStatus, isOkRun, h, Function.comp]
  refine ⟨gen_modules_eq gen save sid now, ?_, gen_total_eq gen save sid now,
    ?_, gen_failed_eq gen save sid now, ?_, ?_⟩
  · rw [gen_modules_eq]
    show List.map (fun n => n) modules_list = modules_list
    exact List.map_id modules_list
  · rw [gen_success_eq]
    exact Nat.eq_sub_of_add_eq hsum
  · rw [gen_modules_eq, List.filter_map, List.length_map,
      List.filter_congr hps]
    exact Nat.eq_sub_of_add_eq hsum
  · rw [gen_modules_eq, List.filter_map, List.length_map,
      List.filter_congr hpe]

/-! ## Claim C4 -/

/-- C4 counterexample: a study text carrying the fenced marker around a
malformed payload. `_process_study_result` returns the error dict with the
raw text capped at 1000 characters and **no** `fallback_mode` key — the
claimed fallback flag is absent (not true) — though the study stage still
reports success. -/
theorem c4_counterexample :
    0 ≤ pyFind studyTextBadJson "```json"
    ∧ jsonLoads (extractedPayload studyTextBadJson)
        = Except.error "Expecting value"
    ∧ processStudyResult jsonLoads studyTextBadJson
        = studyErrorDict "Expecting value" studyTextBadJson
    ∧ pvField (processStudyResult jsonLoads studyTextBadJson) "fallback_mode"
        = Option.none
    ∧ (etapa2 { cAllFail with studyCall := Except.ok studyTextBadJson }
        "s1" "rel").success = true := by
  exact ⟨by decide, rfl, rfl, rfl, rfl⟩

/-- C4 (amended): without the fenced marker, `_process_study_result` builds
the degraded fallback context from the raw text capped at 2000 characters
with `fallback_mode=true`; with the marker and a well-formed payload the
parsed value is returned unmodified; with the marker and a malformed payload
it returns the error dict with the raw text capped at 1000 characters and no
fallback flag at all. In every case the study stage still reports success
whenever the generation call itself returned. -/
theorem c4_fallback_contract (parse : String → Except String PyVal)
    (s : String) (c : Collab) (sid rel : String) :
    (pyFind s "```json" < 0 →
      processStudyResult parse s = studyFallbackDict s
      ∧ pvField (studyFallbackDict s) "fallback_mode"
          = some (PyVal.bool true)
      ∧ (pySlice s 0 2000).length ≤ 2000)
    ∧ (∀ v, 0 ≤ pyFind s "```json" →
        parse (extractedPayload s) = Except.ok v →
        processStudyResult parse s = v)
    ∧ (∀ e, 0 ≤ pyFind s "```json" →
        parse (extractedPayload s) = Except.error e →
        processStudyResult parse s = studyErrorDict e s
        ∧ pvField (studyErrorDict e s) "fallback_mode" = Option.none
        ∧ (pySlice s 0 1000).length ≤ 1000)
    ∧ (c.aiAvailable = true → c.studyCall = Except.ok s →
        (etapa2 c sid rel).success = true
        ∧ (etapa2 c sid rel).contexto
            = processStudyResult c.jsonParse s) := by
  refine ⟨?_, ?_, ?_, ?_⟩
  · intro h
    have hn : ¬ (pyFind s "```json" ≥ 0) := by omega
    refine ⟨?_, rfl, pySlice_prefix_length_le s 2000⟩
    unfold processStudyResult
    rw [if_neg hn]
  · intro v h hp
    unfold processStudyResult
    rw [if_pos h, hp]
  · intro e h hp
    refine ⟨?_, rfl, pySlice_prefix_length_le s 1000⟩
    unfold processStudyResult
    rw [if_pos h, hp]
  · intro hai hst
    rw [etapa2_ok_of_call_ok c sid rel s hai hst]
    exact ⟨rfl, rfl⟩

/-- C4 witness: the amended contract applied at a markerless text and at a
marker-bearing text with a well-formed payload. -/
theorem c4_fallback_contract_witness :
    pyFind studyTextNoMarker "```json" < 0
    ∧ processStudyResult jsonLoads studyTextNoMarker
        = studyFallbackDict studyTextNoMarker
    ∧ 0 ≤ pyFind studyTextOkJson "```json"
    ∧ jsonLoads (extractedPayload studyTextOkJson)
        = Except.ok (PyVal.dict [("a", PyVal.int 1)])
    ∧ processStudyResult jsonLoads studyTextOkJson
        = PyVal.dict [("a", PyVal.int 1)] :=
  ⟨by decide,
    ((c4_fallback_contract jsonLoads studyTextNoMarker cAllFail "s1" "rel").1
      (by decide)).1,
    by decide, rfl,
    (c4_fallback_contract jsonLoads studyTextOkJson cAllFail "s1" "rel").2.1
      (PyVal.dict [("a", PyVal.int 1)]) (by decide) rfl⟩

/-! ## Claim C5 -/

/-- C5: the consolidated report of a generation run decomposes into a
prefix (header and summary), body sections and a statistics suffix; the body
is exactly one section per successfully generated module with that module's
content, concatenated in registry order; the summary's marker list has one
marker line per registry name, in registry order, with ✅ exactly for the
successful modules; and the statistics suffix prints the success ratio
successful/total as a percentage with one decimal digit `q/10 . q%10`,
accurate to within half a tenth (ties included). Failed modules appear in
the marker list but never in the body. -/
theorem c5_report_compilation (gen : String → Except String String)
    (save : String → String → Except String Unit) (sid now t1 t2 : String) :
    consolidatedReportOf gen save sid now t1 t2
      = reportPart1 sid ++ t1
        ++ reportPart2 sid (generate_all_modules gen save sid now)
            (modulesContent (generate_all_modules gen save sid now)
              (filesOf gen save))
        ++ t2 ++ reportPart3 (generate_all_modules gen save sid now)
    ∧ reportBody
        (modulesContent (generate_all_modules gen save sid now)
          (filesOf gen save))
        = String.join
            (modules_list.filterMap
              (fun n =>
                match moduleRun gen save n with
                | .ok c => some (moduleSection n c)
                | .error _ => Option.none))
    ∧ (modules_list.filterMap
          (fun n =>
            match moduleRun gen save n with
            | .ok c => some (moduleSection n c)
            | .error _ => Option.none)).length
        = (generate_all_modules gen save sid now).successful_modules
    ∧ markerLines (generate_all_modules gen save sid now)
        = modules_list.enum.map
            (fun p =>
              toString (p.1 + 1) ++ ". "
                ++ (if isOkRun gen save p.2 then "✅" else "❌") ++ " "
                ++ moduleTitle p.2 ++ "\n")
    ∧ (markerLines (generate_all_modules gen save sid now)).length = 16
    ∧ ∃ q,
        formatRatio (generate_all_modules gen save sid now).successful_modules
            (generate_all_modules gen save sid now).total_modules
          = toString (q / 10) ++ "." ++ toString (q % 10)
        ∧ 16 * q
            ≤ 1000 * (generate_all_modules gen save sid now).successful_modules
              + 8
        ∧ 1000 * (generate_all_modules gen save sid now).successful_modules
            ≤ 16 * q + 8 := by
  refine ⟨rfl, reportBody_pipeline gen save sid now, ?_,
    markerLines_pipeline gen save sid now, ?_, ?_⟩
  · rw [gen_success_eq, length_filterMap_eq_length_filter]
    have hpt : ∀ n ∈ modules_list,
        ((fun n =>
          (match moduleRun gen save n with
            | .ok c => some (moduleSection n c)
            | .error _ => Option.none).isSome) n)
          = isOkRun gen save n := by
      intro n _
      cases h : moduleRun gen save n <;> simp [isOkRun, h]
    rw [List.filter_congr hpt]
  · rw [markerLines_pipeline]
    simp [modules_list_length]
  · rw [gen_total_eq]
    exact formatRatio_sixteen _

/-! ## Claim C6 -/

/-- C6: report compilation is deterministic modulo the two explicit
timestamps. Two compiles over inputs whose per-registry-name lookups agree
produce the same text, with the injected timestamps of lines 677 and 706 the
only varying parts; in particular the output does not depend on the
insertion (arrival) order of the module-content map, which is only ever read
through per-name lookups. -/
theorem c6_idempotent_compile (sid : String) (r : GenResults)
    (mc1 mc2 : List (String × String)) (t1 t2 t1' t2' : String)
    (h : ∀ n ∈ modules_list, List.lookup n mc1 = List.lookup n mc2) :
    ∃ A B C : String,
      build_consolidated_report sid r mc1 t1 t2 = A ++ t1 ++ B ++ t2 ++ C
      ∧ build_consolidated_report sid r mc2 t1' t2'
          = A ++ t1' ++ B ++ t2' ++ C := by
  have hb : reportBody mc2 = reportBody mc1 := by
    unfold reportBody
    congr 1
    exact List.filterMap_congr (fun n hn => by rw [h n hn])
  have h2 : reportPart2 sid r mc2 = reportPart2 sid r mc1 := by
    unfold reportPart2
    rw [hb]
  refine ⟨reportPart1 sid, reportPart2 sid r mc1, reportPart3 r, rfl, ?_⟩
  show reportPart1 sid ++ t1' ++ reportPart2 sid r mc2 ++ t2'
      ++ reportPart3 r = _
  rw [h2]

/-- C6 witness: two content maps holding the same two modules in opposite
insertion orders compile identically up to the timestamps. -/
theorem c6_idempotent_compile_witness :
    (∀ n ∈ modules_list,
      List.lookup n [("avatars", "X"), ("anti_objecao", "Y")]
        = List.lookup n [("anti_objecao", "Y"), ("avatars", "X")])
    ∧ ∃ A B C : String,
        build_consolidated_report "s1"
            { session_id := "s1", timestamp := "t", total_modules := 16
              successful_modules := 2, failed_modules := 14
              modules := [], errors := [] }
            [("avatars", "X"), ("anti_objecao", "Y")] "t1" "t2"
          = A ++ "t1" ++ B ++ "t2" ++ C
        ∧ build_consolidated_report "s1"
            { session_id := "s1", timestamp := "t", total_modules := 16
              successful_modules := 2, failed_modules := 14
              modules := [], errors := [] }
            [("anti_objecao", "Y"), ("avatars", "X")] "t3" "t4"
          = A ++ "t3" ++ B ++ "t4" ++ C :=
  ⟨by decide,
    c6_idempotent_compile "s1"
      { session_id := "s1", timestamp := "t", total_modules := 16
        successful_modules := 2, failed_modules := 14
        modules := [], errors := [] }
      [("avatars", "X"), ("anti_objecao", "Y")]
      [("anti_objecao", "Y"), ("avatars", "X")] "t1" "t2" "t3" "t4"
      (by decide)⟩

/-! ## Claim C7 -/

/-- C7 (amended): for source URL lists of sizes `n1` and `n2` of non-empty
URLs, each duplicate-free, **with the social list capped case `n2 ≤ 10`**,
any set-contract-satisfying dedup yields a duplicate-free extracted list of
exactly `n1 + n2 − k` elements, `k` the number of shared URLs. (The original
claim, quantifying over every `n2`, fails: posts beyond the tenth are
dropped — see the counterexample.) -/
theorem c7_url_dedup (f : List PyVal → List PyVal) (u1 u2 : List String)
    (h1 : ∀ u ∈ u1, u ≠ "") (h2 : ∀ u ∈ u2, u ≠ "")
    (hn1 : u1.Nodup) (hn2 : u2.Nodup) (hlen : u2.length ≤ 10)
    (hf : PySetOkOn f ((u1 ++ u2).map PyVal.str)) :
    (extract_urls f (websailorOf u1) (supadataOf u2)).Nodup
    ∧ (extract_urls f (websailorOf u1) (supadataOf u2)).length
        = u1.length + u2.length - (u1.toFinset ∩ u2.toFinset).card := by
  have hext : extract_urls f (websailorOf u1) (supadataOf u2)
      = f ((u1 ++ u2).map PyVal.str) := by
    unfold extract_urls
    rw [extractUrlsBody_canonical u1 u2 h1 h2, List.take_of_length_le hlen]
  obtain ⟨hnd, hmem⟩ := hf
  have hstr : ∀ x ∈ f ((u1 ++ u2).map PyVal.str), ∃ s, x = PyVal.str s := by
    intro x hx
    obtain ⟨s, _, rfl⟩ := List.mem_map.mp ((hmem x).mp hx)
    exact ⟨s, rfl⟩
  have hL := eq_map_strsOf _ hstr
  have hSnodup : (strsOf (f ((u1 ++ u2).map PyVal.str))).Nodup := by
    have h := hnd
    rw [hL] at h
    exact h.of_map
  have hSmem : ∀ s, s ∈ strsOf (f ((u1 ++ u2).map PyVal.str))
      ↔ s ∈ u1 ++ u2 := by
    intro s
    constructor
    · intro hs
      have hx : PyVal.str s ∈ f ((u1 ++ u2).map PyVal.str) := by
        rw [hL]
        exact List.mem_map_of_mem _ hs
      obtain ⟨t, ht, hts⟩ := List.mem_map.mp ((hmem _).mp hx)
      exact (pyval_str_injective hts) ▸ ht
    · intro hs
      have hx : PyVal.str s ∈ f ((u1 ++ u2).map PyVal.str) :=
        (hmem _).mpr (List.mem_map_of_mem _ hs)
      rw [hL] at hx
      obtain ⟨t, ht, hts⟩ := List.mem_map.mp hx
      exact (pyval_str_injective hts) ▸ ht
  have hSfin : (strsOf (f ((u1 ++ u2).map PyVal.str))).toFinset
      = (u1 ++ u2).toFinset := by
    ext s
    simp only [List.mem_toFinset]
    exact hSmem s
  have hlens : (f ((u1 ++ u2).map PyVal.str)).length
      = (strsOf (f ((u1 ++ u2).map PyVal.str))).length := by
    conv_lhs => rw [hL]
    exact List.length_map _ _
  constructor
  · rw [hext]
    exact hnd
  · rw [hext, hlens, ← List.toFinset_card_of_nodup hSnodup, hSfin,
      List.toFinset_append, Finset.card_union,
      List.toFinset_card_of_nodup hn1, List.toFinset_card_of_nodup hn2]

/-- C7 counterexample: eleven distinct post URLs and no WebSailor URLs. The
claim predicts `n1 + n2 − k = 11` extracted URLs, but the code only ever
reads the first ten posts, so the extracted list has 10 elements. -/
theorem c7_counterexample :
    PySetOkOn
      (fun _ =>
        ["u0", "u1", "u2", "u3", "u4", "u5", "u6", "u7", "u8", "u9"].map
          PyVal.str)
      ((([] : List String)
          ++ (["u0", "u1", "u2", "u3", "u4", "u5", "u6", "u7", "u8", "u9",
              "u10"].take 10)).map PyVal.str)
    ∧ (extract_urls
        (fun _ =>
          ["u0", "u1", "u2", "u3", "u4", "u5", "u6", "u7", "u8", "u9"].map
            PyVal.str)
        (websailorOf [])
        (supadataOf
          ["u0", "u1", "u2", "u3", "u4", "u5", "u6", "u7", "u8", "u9",
           "u10"])).length = 10
    ∧ ([] : List String).length
        + (["u0", "u1", "u2", "u3", "u4", "u5", "u6", "u7", "u8", "u9",
            "u10"] : List String).length
        - ((([] : List String)).toFinset
            ∩ (["u0", "u1", "u2", "u3", "u4", "u5", "u6", "u7", "u8", "u9",
                "u10"] : List String).toFinset).card = 11
    ∧ (10 : Nat) ≠ 11 := by
  refine ⟨⟨?_, fun x => Iff.rfl⟩, rfl, by decide, by decide⟩
  have h : (["u0", "u1", "u2", "u3", "u4", "u5", "u6", "u7", "u8", "u9"]
      : List String).Nodup := by decide
  exact h.map pyval_str_injective

/-- C7 witness: the amended dedup size law at `n1 = 2`, `n2 = 2`, `k = 1`. -/
theorem c7_url_dedup_witness :
    (∀ u ∈ ["a", "b"], u ≠ "")
    ∧ (["a", "b"] : List String).Nodup
    ∧ (["b", "c"] : List String).Nodup
    ∧ PySetOkOn (fun _ => [PyVal.str "a", PyVal.str "b", PyVal.str "c"])
        (((["a", "b"] ++ ["b", "c"]) : List String).map PyVal.str)
    ∧ (extract_urls (fun _ => [PyVal.str "a", PyVal.str "b", PyVal.str "c"])
        (websailorOf ["a", "b"]) (supadataOf ["b", "c"])).Nodup
    ∧ (extract_urls (fun _ => [PyVal.str "a", PyVal.str "b", PyVal.str "c"])
        (websailorOf ["a", "b"]) (supadataOf ["b", "c"])).length
        = (["a", "b"] : List String).length
          + (["b", "c"] : List String).length
          - ((["a", "b"] : List String).toFinset
              ∩ (["b", "c"] : List String).toFinset).card := by
  have hset : PySetOkOn (fun _ => [PyVal.str "a", PyVal.str "b", PyVal.str "c"])
      (((["a", "b"] ++ ["b", "c"]) : List String).map PyVal.str) := by
    constructor
    · have h : (["a", "b", "c"] : List String).Nodup := by decide
      exact h.map pyval_str_injective
    · intro x
      have hlist : ((["a", "b"] ++ ["b", "c"] : List String).map PyVal.str)
          = [PyVal.str "a", PyVal.str "b", PyVal.str "b", PyVal.str "c"] :=
        rfl
      rw [hlist]
      simp only [List.mem_cons, List.not_mem_nil, or_false]
      tauto
  have h := c7_url_dedup (fun _ => [PyVal.str "a", PyVal.str "b", PyVal.str "c"])
    ["a", "b"] ["b", "c"] (by decide) (by decide) (by decide) (by decide)
    (by decide) hset
  exact ⟨by decide, by decide, by decide, hset, h.1, h.2⟩

/-! ## Claim C8 -/

/-- C8 counterexample: `list(set(urls))` does not guarantee insertion order.
A dedup satisfying the set contract (duplicate-free, same elements) may
return the two URLs in reversed order, so the extracted list differs from
the first-encounter-order dedup the claim requires. -/
theorem c8_counterexample :
    PySetOkOn (fun _ => [PyVal.str "b", PyVal.str "a"])
      (bodyUrlsOf (websailorOf ["a", "b"]) (supadataOf []))
    ∧ extract_urls (fun _ => [PyVal.str "b", PyVal.str "a"])
        (websailorOf ["a", "b"]) (supadataOf [])
        = [PyVal.str "b", PyVal.str "a"]
    ∧ (dedupFirst (["a", "b"] ++ ([] : List String).take 10)).map PyVal.str
        = [PyVal.str "a", PyVal.str "b"]
    ∧ [PyVal.str "b", PyVal.str "a"] ≠ [PyVal.str "a", PyVal.str "b"] := by
  refine ⟨⟨?_, ?_⟩, rfl, rfl, ?_⟩
  · have h : (["b", "a"] : List String).Nodup := by decide
    exact h.map pyval_str_injective
  · intro x
    have hlist : bodyUrlsOf (websailorOf ["a", "b"]) (supadataOf [])
        = [PyVal.str "a", PyVal.str "b"] := rfl
    rw [hlist]
    simp only [List.mem_cons, List.not_mem_nil, or_false]
    tauto
  · intro h
    injection h with h1 _
    injection h1 with h2
    exact absurd h2 (by decide)

/-- C8 (amended): the deduplicated URL list has no duplicates and exactly
the first-encountered URLs as elements, but in an order the `set` construct
leaves unspecified; and the list handed to the visual-capture collaborator
is exactly the first 15 entries of that deduplicated list as returned. -/
theorem c8_dedup_order_cap (f : List PyVal → List PyVal) (w s : PyVal)
    (c : Collab) (ws : PyVal) (rep : String)
    (vf : List PyVal → List (String × PyVal)) :
    (PySetOkOn f (bodyUrlsOf w s) →
      (extract_urls f w s).Nodup
      ∧ (∀ x, x ∈ extract_urls f w s ↔ x ∈ bodyUrlsOf w s))
    ∧ (c.websailor = Except.ok ws →
       c.supadataAvailable = false →
       (∀ us, c.visualCapture us = Except.ok (PyVal.dict (vf us))) →
       c.massReport = Except.ok rep →
       extract_urls c.pySet ws supadataFailDict ≠ [] →
       etapa1 c
         = Etapa1Result.ok
             { websailor_data := ws
               supadata_data := supadataFailDict
               visual_data :=
                 PyVal.dict
                   (vf ((extract_urls c.pySet ws supadataFailDict).take 15))
               relatorio_gigante := rep
               total_urls_captured :=
                 (extract_urls c.pySet ws supadataFailDict).length
               screenshots_count :=
                 (pvLookup
                   (vf ((extract_urls c.pySet ws supadataFailDict).take 15))
                   "successful_captures").getD (PyVal.int 0)
               timestamp := c.now }) := by
  constructor
  · intro hf
    unfold bodyUrlsOf at hf
    unfold extract_urls bodyUrlsOf
    cases hb : extractUrlsBody w s with
    | ok urls =>
        rw [hb] at hf
        exact ⟨hf.1, hf.2⟩
    | error e =>
        exact ⟨List.nodup_nil, fun x => Iff.rfl⟩
  · intro hws hsa hv hrep hne
    have hnotempty :
        ¬ ((extract_urls c.pySet ws supadataFailDict).isEmpty = true) :=
      fun h => hne (List.isEmpty_iff.mp h)
    unfold etapa1 etapa1Body
    simp only [hws, exc_bind_ok, hsa, Bool.false_eq_true, ite_false,
      exc_pure, exc_bind_ok]
    rw [if_neg hnotempty]
    simp only [hv _, exc_bind_ok, hrep]
    rfl

/-- C8 witness: the amended statement applied with the identity dedup on an
already-duplicate-free URL list (first conjunct) and at the concrete
two-URL collection run (second conjunct). -/
theorem c8_dedup_order_cap_witness :
    PySetOkOn (fun l => l)
      (bodyUrlsOf (websailorOf ["a", "b"]) (supadataOf []))
    ∧ (extract_urls (fun l => l) (websailorOf ["a", "b"])
        (supadataOf [])).Nodup
    ∧ cTwoUrls.websailor
        = Except.ok (websailorOf ["https://a.example", "https://b.example"])
    ∧ cTwoUrls.supadataAvailable = false
    ∧ extract_urls cTwoUrls.pySet
        (websailorOf ["https://a.example", "https://b.example"])
        supadataFailDict ≠ []
    ∧ etapa1 cTwoUrls
        = Etapa1Result.ok
            { websailor_data :=
                websailorOf ["https://a.example", "https://b.example"]
              supadata_data := supadataFailDict
              visual_data :=
                PyVal.dict
                  ((fun us => [("successful_captures",
                      PyVal.int (us.length : Int))])
                    ((extract_urls cTwoUrls.pySet
                      (websailorOf ["https://a.example", "https://b.example"])
                      supadataFailDict).take 15))
              relatorio_gigante := "RELATÓRIO GIGANTE"
              total_urls_captured :=
                (extract_urls cTwoUrls.pySet
                  (websailorOf ["https://a.example", "https://b.example"])
                  supadataFailDict).length
              screenshots_count :=
                (pvLookup
                  ((fun us => [("successful_captures",
                      PyVal.int (us.length : Int))])
                    ((extract_urls cTwoUrls.pySet
                      (websailorOf ["https://a.example", "https://b.example"])
                      supadataFailDict).take 15))
                  "successful_captures").getD (PyVal.int 0)
              timestamp := "01/01/2026 00:00:00" } := by
  have hcontract : PySetOkOn (fun l => l)
      (bodyUrlsOf (websailorOf ["a", "b"]) (supadataOf [])) := by
    constructor
    · have h : (["a", "b"] : List String).Nodup := by decide
      exact h.map pyval_str_injective
    · intro x
      exact Iff.rfl
  have hne : extract_urls cTwoUrls.pySet
      (websailorOf ["https://a.example", "https://b.example"])
      supadataFailDict ≠ [] := by
    intro h
    exact List.cons_ne_nil _ _ h
  refine ⟨hcontract,
    ((c8_dedup_order_cap (fun l => l) (websailorOf ["a", "b"])
        (supadataOf []) cAllFail PyVal.none "" (fun _ => [])).1 hcontract).1,
    rfl, rfl, hne,
    (c8_dedup_order_cap cTwoUrls.pySet (websailorOf ["a", "b"])
        (supadataOf []) cTwoUrls
        (websailorOf ["https://a.example", "https://b.example"])
        "RELATÓRIO GIGANTE"
        (fun us => [("successful_captures", PyVal.int (us.length : Int))])).2
      rfl rfl (fun us => rfl) rfl hne⟩

/-! ## Claim C10 -/

/-- C10: the Supadata contribution to URL extraction is capped at the first
ten posts — extraction over any post list equals extraction over its first
ten entries — and any exception inside the extraction body makes
`_extract_urls_from_results` return the empty list, after which the
collection stage still succeeds, reporting the visual-capture failure dict
and zero captured URLs instead of failing. -/
theorem c10_post_cap_exception (f : List PyVal → List PyVal)
    (u1 u2 : List String) (w s2 : PyVal) (e : String)
    (c : Collab) (ws : PyVal) (rep : String) :
    ((∀ u ∈ u1, u ≠ "") → (∀ u ∈ u2, u ≠ "") →
      extract_urls f (websailorOf u1) (supadataOf u2)
        = f ((u1 ++ u2.take 10).map PyVal.str))
    ∧ (extractUrlsBody w s2 = Except.error e → extract_urls f w s2 = [])
    ∧ (c.websailor = Except.ok ws →
       c.supadataAvailable = false →
       c.massReport = Except.ok rep →
       extract_urls c.pySet ws supadataFailDict = [] →
       etapa1 c
         = Etapa1Result.ok
             { websailor_data := ws
               supadata_data := supadataFailDict
               visual_data := visualFailDict
               relatorio_gigante := rep
               total_urls_captured := 0
               screenshots_count := PyVal.int 0
               timestamp := c.now }) := by
  refine ⟨?_, ?_, ?_⟩
  · intro h1 h2
    unfold extract_urls
    rw [extractUrlsBody_canonical u1 u2 h1 h2]
  · intro herr
    unfold extract_urls
    rw [herr]
  · intro hws hsa hrep hzero
    have hempty : (extract_urls c.pySet ws supadataFailDict).isEmpty
        = true := by
      rw [hzero]
      rfl
    unfold etapa1 etapa1Body
    simp only [hws, exc_bind_ok, hsa, Bool.false_eq_true, ite_false,
      exc_pure, exc_bind_ok]
    rw [if_pos hempty]
    simp only [hzero, exc_pure, exc_bind_ok, hrep]
    rfl

/-- C10 witness: the cap applied at two posts, the exception path at a
payload whose `conteudo_consolidado` is a truthy non-dict, and the
zero-URL collection run. -/
theorem c10_post_cap_exception_witness :
    extract_urls (fun l => l) (websailorOf []) (supadataOf ["p", "q"])
      = (fun l => l) (((([] : List String) ++ (["p", "q"].take 10))).map
          PyVal.str)
    ∧ extractUrlsBody (PyVal.dict [("conteudo_consolidado", PyVal.int 1)])
        (supadataOf [])
        = Except.error "AttributeError: get on non-dict for key fontes_detalhadas"
    ∧ extract_urls (fun l => l)
        (PyVal.dict [("conteudo_consolidado", PyVal.int 1)]) (supadataOf [])
        = []
    ∧ extract_urls cAllFail.pySet (PyVal.dict [("success", PyVal.bool false)])
        supadataFailDict = []
    ∧ etapa1 cAllFail
        = Etapa1Result.ok
            { websailor_data := PyVal.dict [("success", PyVal.bool false)]
              supadata_data := supadataFailDict
              visual_data := visualFailDict
              relatorio_gigante := "RELATÓRIO GIGANTE"
              total_urls_captured := 0
              screenshots_count := PyVal.int 0
              timestamp := "01/01/2026 00:00:00" } :=
  ⟨(c10_post_cap_exception (fun l => l) [] ["p", "q"] PyVal.none PyVal.none
      "" cAllFail PyVal.none "").1 (by decide) (by decide),
    rfl,
    (c10_post_cap_exception (fun l => l) [] []
      (PyVal.dict [("conteudo_consolidado", PyVal.int 1)]) (supadataOf [])
      "AttributeError: get on non-dict for key fontes_detalhadas"
      cAllFail PyVal.none "").2.1 rfl,
    rfl,
    (c10_post_cap_exception cAllFail.pySet [] [] PyVal.none PyVal.none ""
      cAllFail (PyVal.dict [("success", PyVal.bool false)])
      "RELATÓRIO GIGANTE").2.2 rfl rfl rfl rfl⟩
